import Mathlib

/-!
# Verification of the sane-figs styling layer

A shallow embedding, in Lean 4, of the parts of the `sane_figs` Python
package that the verified properties talk about: the watermark system
(`sane_figs/styling/watermarks.py`), the validation pass
(`sane_figs/core/validation.py`), the YAML preset parser
(`sane_figs/core/yaml_parser.py`), the preset and colorway data model
(`sane_figs/core/presets.py`, `sane_figs/styling/colorways.py`),
the four library adapters (`sane_figs/adapters/*.py`) and the global
setup orchestration (`sane_figs/core/setup.py`).

Modelling conventions:
* Python numbers are modelled by `PyNum` (an `int`/`float` tagged value
  over `ℤ`/`ℚ`), so that `isinstance(x, int)` checks in the validation
  code are expressible.
* Python dictionaries that the code iterates over are modelled as
  association lists in insertion order (Python dicts preserve insertion
  order).
* Exceptions are modelled with `Except`/`Option` error values; functions
  whose Python originals mutate global state and may *also* raise return
  the mutated state together with an optional exception, matching the
  fact that Python global mutations persist when an exception propagates.
-/

deriving instance DecidableEq for Except

namespace SaneFigs

/-- A Python number: either an `int` or a `float`.  `float` values are
modelled as exact rationals. -/
inductive PyNum where
  | int (n : ℤ)
  | float (q : ℚ)
  deriving DecidableEq, Repr

namespace PyNum

/-- The numeric value of a `PyNum`, as a rational. -/
def toQ : PyNum → ℚ
  | .int n => mkRat n 1
  | .float q => q

/-- `isinstance(x, int)` for a modelled Python number. -/
def isInt : PyNum → Bool
  | .int _ => true
  | .float _ => false

/-- Render the decimal expansion of `q * 10^k` assuming `q`'s denominator
divides `10^k` (helper for `floatStr`). -/
def fracDigits (num : ℤ) (den : ℤ) (k : Nat) : String :=
  match k with
  | 0 => ""
  | Nat.succ k' =>
    let d := (num * 10) / den
    let r := (num * 10) % den
    if r = 0 then toString d
    else toString d ++ fracDigits r den k'

/-- `str()` of a Python float, for rationals whose denominator divides a
power of ten (all floats appearing in this development); other rationals
fall back to a `num/den` rendering, which no modelled value hits. -/
def floatStr (q : ℚ) : String :=
  let sign := if q.num < 0 then "-" else ""
  let na : ℤ := if q.num < 0 then -q.num else q.num
  let d : ℤ := (q.den : ℤ)
  let ip : ℤ := na / d
  let fr : ℤ := na % d
  if fr = 0 then sign ++ toString ip ++ ".0"
  else sign ++ toString ip ++ "." ++ fracDigits fr d 12

/-- `str(x)` for a modelled Python number. -/
def pyStr : PyNum → String
  | .int n => toString n
  | .float q => floatStr q

end PyNum

/-- Association-list lookup, the model of Python `dict.get(k)` /
`k in d` on insertion-ordered dictionaries. -/
def aget {α : Type} (l : List (String × α)) (k : String) : Option α :=
  (l.find? (fun kv => decide (kv.1 = k))).map (·.2)

/-- Association-list insert-or-replace, the model of `d[k] = v` on an
insertion-ordered dictionary. -/
def aset {α : Type} : List (String × α) → String → α → List (String × α)
  | [], k, v => [(k, v)]
  | (k', v') :: t, k, v => if k' = k then (k, v) :: t else (k', v') :: aset t k v

/-- Association-list removal, the model of `d.pop(k, None)`.  Every
binding of the key is dropped: keys are unique in every association
list the modelled code constructs, and dropping all bindings makes the
model agree with dict semantics on every representation value. -/
def apop {α : Type} (l : List (String × α)) (k : String) : List (String × α) :=
  l.filter (fun kv => decide (kv.1 ≠ k))

/-- Python `d.get(k, default)` for a font-size dictionary. -/
def fsGet (l : List (String × PyNum)) (k : String) (dflt : ℚ) : ℚ :=
  match aget l k with
  | some v => v.toQ
  | none => dflt

/-- A colorway: four ordered hex-color lists
(`sane_figs/styling/colorways.py`, class `Colorway`). -/
structure Colorway where
  name : String
  description : String
  categorical : List String
  sequential : List String
  diverging : List String
  qualitative : List String
  deriving DecidableEq, Repr

/-- A watermark configuration
(`sane_figs/styling/watermarks.py`, class `WatermarkConfig`);
the fields after construction-time validation. -/
structure WatermarkConfig where
  image_path : Option String
  text : Option String
  position : String
  opacity : PyNum
  scale : PyNum
  margin : PyNum × PyNum
  font_size : PyNum
  font_family : String
  font_weight : String
  font_color : String
  deriving DecidableEq, Repr

/-- The five valid watermark position names
(`watermarks.py`, `WatermarkConfig.__post_init__`, lines 46-52). -/
def validPositions : List String :=
  ["top-left", "top-right", "bottom-left", "bottom-right", "center"]

/-- `WatermarkConfig.__post_init__` (`watermarks.py` lines 41-71):
construction-time validation.  Returns the validated config, or the
`ValueError` message raised.  The `len(margin) != 2` check always
passes here because the margin is modelled as a pair. -/
def mkWatermarkConfig (image_path : Option String) (text : Option String)
    (position : String) (opacity : PyNum) (scale : PyNum)
    (margin : PyNum × PyNum) (font_size : PyNum) (font_family : String)
    (font_weight : String) (font_color : String) :
    Except String WatermarkConfig :=
  if image_path.isNone ∧ text.isNone then
    .error "Either image_path or text must be provided."
  else if ¬ (position ∈ validPositions) then
    .error ("Invalid position '" ++ position ++ "'. Valid positions: " ++
      toString validPositions)
  else if ¬ (0 ≤ opacity.toQ ∧ opacity.toQ ≤ 1) then
    .error ("Opacity must be between 0.0 and 1.0, got " ++ opacity.pyStr)
  else if ¬ (0 ≤ scale.toQ ∧ scale.toQ ≤ 1) then
    .error ("Scale must be between 0.0 and 1.0, got " ++ scale.pyStr)
  else if ¬ (0 ≤ margin.1.toQ ∧ margin.1.toQ ≤ 1 ∧ 0 ≤ margin.2.toQ ∧ margin.2.toQ ≤ 1) then
    .error ("Margin values must be between 0.0 and 1.0, got (" ++
      margin.1.pyStr ++ ", " ++ margin.2.pyStr ++ ")")
  else
    .ok { image_path, text, position, opacity, scale, margin,
          font_size, font_family, font_weight, font_color }

/-- `create_text_watermark` (`watermarks.py` lines 74-117): a text
watermark with the given text and the constructor's default values for
every other field. -/
def createTextWatermark (text : String) : Except String WatermarkConfig :=
  mkWatermarkConfig none (some text) "bottom-right" (.float (mkRat 3 10))
    (.float (mkRat 1 10)) (.float (mkRat 1 50), .float (mkRat 1 50))
    (.float (mkRat 12 1)) "sans-serif" "normal" "#000000"

/-- `get_watermark_position` (`watermarks.py` lines 166-211): maps a
named position to `(x, y)` coordinates; raises `ValueError` for an
unknown position name. -/
def get_watermark_position (position : String)
    (figure_width figure_height watermark_width watermark_height : ℚ)
    (margin_x margin_y : ℚ) : Except String (ℚ × ℚ) :=
  let margin_x_px := figure_width * margin_x
  let margin_y_px := figure_height * margin_y
  if position = "top-left" then
    .ok (margin_x_px, figure_height - watermark_height - margin_y_px)
  else if position = "top-right" then
    .ok (figure_width - watermark_width - margin_x_px,
         figure_height - watermark_height - margin_y_px)
  else if position = "bottom-left" then
    .ok (margin_x_px, margin_y_px)
  else if position = "bottom-right" then
    .ok (figure_width - watermark_width - margin_x_px, margin_y_px)
  else if position = "center" then
    .ok ((figure_width - watermark_width) / 2,
         (figure_height - watermark_height) / 2)
  else
    .error ("Unknown position: " ++ position)

/-- A styling preset (`sane_figs/core/presets.py`, class `Preset`).
Numeric fields keep the Python `int`/`float` distinction because the
validation pass checks `isinstance(dpi, int)`. -/
structure Preset where
  name : String
  mode : String
  figure_size : PyNum × PyNum
  dpi : PyNum
  font_family : String
  font_size : List (String × PyNum)
  line_width : PyNum
  marker_size : PyNum
  colorway : Option Colorway
  watermark : Option WatermarkConfig
  deriving DecidableEq, Repr

/-- `DEFAULT_COLORWAY` (`colorways.py` lines 34-86). -/
def DEFAULT_COLORWAY : Colorway :=
  { name := "default"
    description := "Publication-ready color palette optimized for print"
    categorical := ["#1f77b4", "#ff7f0e", "#2ca02c", "#d62728", "#9467bd",
                    "#8c564b", "#e377c2", "#7f7f7f", "#bcbd22", "#17becf"]
    sequential := ["#f7fbff", "#deebf7", "#c6dbef", "#9ecae1", "#6baed6",
                   "#4292c6", "#2171b5", "#08519c", "#081d58"]
    diverging := ["#67001f", "#b2182b", "#d6604d", "#f4a582", "#fddbc7",
                  "#f7f7f7", "#d1e5f0", "#92c5de", "#4393c3", "#2166ac",
                  "#053061"]
    qualitative := ["#4e79a7", "#f28e2b", "#e15759", "#76b7b2", "#59a14f",
                    "#edc948", "#b07aa1", "#ff9da7", "#9c755f", "#bab0ac"] }

/-- `VIBRANT_COLORWAY` (`colorways.py` lines 145-198). -/
def VIBRANT_COLORWAY : Colorway :=
  { name := "vibrant"
    description := "High contrast colors optimized for presentations"
    categorical := ["#FF0000", "#00FF00", "#0000FF", "#FFFF00", "#FF00FF",
                    "#00FFFF", "#FF8000", "#8000FF", "#00FF80", "#FF0080"]
    sequential := ["#FFFFE0", "#FFFF00", "#FFD700", "#FFA500", "#FF8C00",
                   "#FF4500", "#FF0000", "#DC143C", "#B22222", "#8B0000"]
    diverging := ["#0000FF", "#1E90FF", "#00BFFF", "#87CEEB", "#E0FFFF",
                  "#FFFFFF", "#FFE4E1", "#FFB6C1", "#FF69B4", "#FF1493",
                  "#FF0000"]
    qualitative := ["#E63946", "#F1FAEE", "#A8DADC", "#457B9D", "#1D3557",
                    "#2A9D8F", "#E9C46A", "#F4A261", "#E76F51", "#264653"] }

/-- `_ARTICLE_PRESET` (`presets.py` lines 200-217). -/
def ARTICLE_PRESET : Preset :=
  { name := "article", mode := "article"
    figure_size := (.float (mkRat 7 2), .float (mkRat 21 8))
    dpi := .int 300
    font_family := "sans-serif"
    font_size := [("title", .float (mkRat 9 1)), ("label", .float (mkRat 8 1)),
                  ("legend", .float (mkRat 7 1)), ("tick", .float (mkRat 7 1)),
                  ("annotation", .float (mkRat 7 1))]
    line_width := .float (mkRat 1 1)
    marker_size := .float (mkRat 4 1)
    colorway := none
    watermark := none }

/-- `_PRESENTATION_PRESET` (`presets.py` lines 222-239). -/
def PRESENTATION_PRESET : Preset :=
  { name := "presentation", mode := "presentation"
    figure_size := (.float (mkRat 1333 100), .float (mkRat 15 2))
    dpi := .int 150
    font_family := "sans-serif"
    font_size := [("title", .float (mkRat 28 1)), ("label", .float (mkRat 24 1)),
                  ("legend", .float (mkRat 20 1)), ("tick", .float (mkRat 20 1)),
                  ("annotation", .float (mkRat 20 1))]
    line_width := .float (mkRat 3 1)
    marker_size := .float (mkRat 10 1)
    colorway := none
    watermark := none }

/-- Python `repr` of a list of strings, used where the source
interpolates a list into an error message. -/
def pyListStr (xs : List String) : String :=
  "[" ++ String.intercalate ", " (xs.map (fun s => "'" ++ s ++ "'")) ++ "]"

/-- One field-level validation finding
(`sane_figs/core/validation.py`, class `ValidationError`). -/
structure ValidationError where
  field : String
  message : String
  severity : String := "error"
  deriving DecidableEq, Repr

/-- Hexadecimal digit test for `_is_valid_hex_color`. -/
def hexDigit (c : Char) : Bool :=
  c.isDigit ∨ ('a' ≤ c ∧ c ≤ 'f') ∨ ('A' ≤ c ∧ c ≤ 'F')

/-- `_is_valid_hex_color` (`validation.py` lines 355-377): a `#` followed
by 6 or 8 hex digits.  (Python's `int(s, 16)` also tolerates signs and
underscores; such strings are outside the modelled color grammar and no
verified property touches them.) -/
def isValidHexColor (color : String) : Bool :=
  match color.data with
  | '#' :: hexPart =>
    if hexPart.length = 6 ∨ hexPart.length = 8 then hexPart.all hexDigit
    else false
  | _ => false

/-- `validate_colorway` (`validation.py` lines 167-229).  The
`isinstance` checks on lists and strings always pass in the model, which
represents color lists as `List String`. -/
def validate_colorway (colorway : Colorway) : List ValidationError :=
  let nameErrs :=
    if colorway.name = "" then
      [{ field := "name", message := "Colorway name must be a non-empty string." }]
    else []
  let descErrs :=
    if colorway.description = "" then
      [{ field := "description",
         message := "Colorway description must be a non-empty string." }]
    else []
  let colorErrs := (([("categorical", colorway.categorical),
                      ("sequential", colorway.sequential),
                      ("diverging", colorway.diverging),
                      ("qualitative", colorway.qualitative)] :
                     List (String × List String)).map (fun ct =>
    (ct.2.enum.map (fun ci =>
      if ¬ isValidHexColor ci.2 then
        [{ field := ct.1 ++ "[" ++ toString ci.1 ++ "]",
           message := "Invalid hex color '" ++ ci.2 ++
             "'. Expected format: #RRGGBB or #RRGGBBAA." }]
      else ([] : List ValidationError))).flatten)).flatten
  nameErrs ++ descErrs ++ colorErrs

/-- `validate_watermark` (`validation.py` lines 232-352).  The
`isinstance` checks on numbers, strings and the margin length always
pass in the model; the range, position and hex-color checks are real. -/
def validate_watermark (w : WatermarkConfig) : List ValidationError :=
  (if w.image_path.isNone ∧ w.text.isNone then
    [{ field := "watermark",
       message := "Either image_path or text must be provided for watermark." }]
   else []) ++
  (if ¬ (w.position ∈ validPositions) then
    [{ field := "position",
       message := "Invalid position '" ++ w.position ++ "'. Valid positions: " ++
         pyListStr validPositions }]
   else []) ++
  (if ¬ (0 ≤ w.opacity.toQ ∧ w.opacity.toQ ≤ 1) then
    [{ field := "opacity",
       message := "Opacity must be between 0.0 and 1.0, got " ++
         w.opacity.pyStr ++ "." }]
   else []) ++
  (if ¬ (0 ≤ w.scale.toQ ∧ w.scale.toQ ≤ 1) then
    [{ field := "scale",
       message := "Scale must be between 0.0 and 1.0, got " ++
         w.scale.pyStr ++ "." }]
   else []) ++
  (if ¬ (0 ≤ w.margin.1.toQ ∧ w.margin.1.toQ ≤ 1) then
    [{ field := "margin.x",
       message := "Margin X must be between 0.0 and 1.0, got " ++
         w.margin.1.pyStr ++ "." }]
   else []) ++
  (if ¬ (0 ≤ w.margin.2.toQ ∧ w.margin.2.toQ ≤ 1) then
    [{ field := "margin.y",
       message := "Margin Y must be between 0.0 and 1.0, got " ++
         w.margin.2.pyStr ++ "." }]
   else []) ++
  (if w.font_size.toQ ≤ 0 then
    [{ field := "font_size",
       message := "Font size must be a positive number, got " ++
         w.font_size.pyStr ++ "." }]
   else []) ++
  (if ¬ isValidHexColor w.font_color then
    [{ field := "font_color",
       message := "Invalid hex color '" ++ w.font_color ++
         "'. Expected format: #RRGGBB or #RRGGBBAA." }]
   else [])

/-- The valid font-size keys of `validate_preset`
(`validation.py` line 104). -/
def validFontKeys : List String := ["title", "label", "legend", "tick", "annotation"]

/-- `validate_preset` (`validation.py` lines 28-164).  `isinstance`
checks that the typed model makes vacuous (tuples of numbers, string
fields, a dict of font sizes) always pass; sign checks, the
`isinstance(dpi, int)` check, the unknown-font-key warning and the
recursive colorway/watermark validation are translated exactly. -/
def validate_preset (p : Preset) : List ValidationError :=
  (if p.name = "" then
    [{ field := "name", message := "Preset name must be a non-empty string." }]
   else []) ++
  (if p.mode = "" then
    [{ field := "mode", message := "Preset mode must be a non-empty string." }]
   else []) ++
  (if p.figure_size.1.toQ ≤ 0 then
    [{ field := "figure_size.width",
       message := "Figure width must be a positive number, got " ++
         p.figure_size.1.pyStr ++ "." }]
   else []) ++
  (if p.figure_size.2.toQ ≤ 0 then
    [{ field := "figure_size.height",
       message := "Figure height must be a positive number, got " ++
         p.figure_size.2.pyStr ++ "." }]
   else []) ++
  (if ¬ p.dpi.isInt ∨ p.dpi.toQ ≤ 0 then
    [{ field := "dpi",
       message := "DPI must be a positive integer, got " ++ p.dpi.pyStr ++ "." }]
   else []) ++
  (if p.font_family = "" then
    [{ field := "font_family", message := "Font family must be a non-empty string." }]
   else []) ++
  ((p.font_size.map (fun kv =>
    (if ¬ (kv.1 ∈ validFontKeys) then
      [{ field := "font_size." ++ kv.1,
         message := "Unknown font size key '" ++ kv.1 ++
           "'. Valid keys: \x7b'title', 'label', 'legend', 'tick', 'annotation'\x7d",
         severity := "warning" }]
     else []) ++
    (if kv.2.toQ ≤ 0 then
      [{ field := "font_size." ++ kv.1,
         message := "Font size for '" ++ kv.1 ++
           "' must be a positive number, got " ++ kv.2.pyStr ++ "." }]
     else []))).flatten) ++
  (if p.line_width.toQ ≤ 0 then
    [{ field := "line_width",
       message := "Line width must be a positive number, got " ++
         p.line_width.pyStr ++ "." }]
   else []) ++
  (if p.marker_size.toQ ≤ 0 then
    [{ field := "marker_size",
       message := "Marker size must be a positive number, got " ++
         p.marker_size.pyStr ++ "." }]
   else []) ++
  (match p.colorway with
   | some cw => (validate_colorway cw).map (fun e =>
       { field := "colorway." ++ e.field, message := e.message, severity := e.severity })
   | none => []) ++
  (match p.watermark with
   | some w => (validate_watermark w).map (fun e =>
       { field := "watermark." ++ e.field, message := e.message, severity := e.severity })
   | none => [])

/-- A YAML value as produced by `yaml.safe_load`, restricted to the
scalar kinds the preset schema uses. -/
inductive Yaml where
  | str (s : String)
  | int (n : ℤ)
  | float (q : ℚ)
  | bool (b : Bool)
  | list (xs : List Yaml)
  | dict (kvs : List (String × Yaml))

/-- The view of a YAML value as a string. -/
def Yaml.asStr : Yaml → Option String
  | .str s => some s
  | _ => none

/-- The view of a YAML value as a Python number. -/
def Yaml.asNum : Yaml → Option PyNum
  | .int n => some (.int n)
  | .float q => some (.float q)
  | _ => none

/-- The view of a YAML value as a mapping. -/
def Yaml.asDict : Yaml → Option (List (String × Yaml))
  | .dict d => some d
  | _ => none

/-- The view of a YAML value as a sequence. -/
def Yaml.asList : Yaml → Option (List Yaml)
  | .list l => some l
  | _ => none

/-- Exceptions that can escape the YAML loading path
(`sane_figs/core/yaml_parser.py`).  `typeError` stands for the Python
`TypeError`/`AttributeError` raised on document shapes outside the
modelled happy path (for example a scalar where a mapping is expected);
no verified property depends on those shapes. -/
inductive YamlErr where
  | parseError (msg : String)
  | validationError (errors : List ValidationError)
  | valueError (msg : String)
  | typeError (msg : String)
  deriving DecidableEq, Repr

/-- Turn an optional view into a `typeError` for shapes the model does
not represent. -/
def reqShape {α : Type} (o : Option α) (what : String) : Except YamlErr α :=
  match o with
  | some a => .ok a
  | none => .error (.typeError what)

/-- `get_colorway` (`colorways.py` lines 440-457) with the module-global
`_COLORWAY_REGISTRY` passed explicitly. -/
def get_colorway (registry : List (String × Colorway)) (name : String) :
    Except String Colorway :=
  match aget registry name with
  | none => .error ("Unknown colorway '" ++ name ++ "'. Available colorways: " ++
      pyListStr (registry.map (·.1)))
  | some c => .ok c

/-- `_parse_colorway_from_dict` (`yaml_parser.py` lines 294-338): check
the required fields, read the four color lists (defaulting to `[]`),
build the `Colorway` and raise `YAMLValidationError` with exactly the
colorway's own validation findings when any exist. -/
def parse_colorway_from_dict (data : List (String × Yaml)) :
    Except YamlErr Colorway := do
  let nameY ← match aget data "name" with
    | some v => pure v
    | none => .error (.parseError "Missing required field: 'name'")
  let descY ← match aget data "description" with
    | some v => pure v
    | none => .error (.parseError "Missing required field: 'description'")
  let name ← reqShape nameY.asStr "colorway name must be a string in the model"
  let description ← reqShape descY.asStr "colorway description must be a string in the model"
  let colors ← reqShape ((aget data "colors").getD (.dict [])).asDict
    "'colors' must be a mapping in the model"
  let getColors : String → Except YamlErr (List String) := fun k =>
    reqShape (((aget colors k).getD (.list [])).asList.bind
      (fun l => l.mapM Yaml.asStr)) "colors must be lists of strings in the model"
  let categorical ← getColors "categorical"
  let sequential ← getColors "sequential"
  let diverging ← getColors "diverging"
  let qualitative ← getColors "qualitative"
  let colorway : Colorway :=
    { name, description, categorical, sequential, diverging, qualitative }
  let errors := validate_colorway colorway
  if errors ≠ [] then .error (.validationError errors)
  else pure colorway

/-- `_parse_watermark_from_dict` (`yaml_parser.py` lines 370-438): read
the common and type-specific fields with their defaults, resolve image
paths against the YAML file's directory, construct the
`WatermarkConfig` (whose `__post_init__` may raise `ValueError`), then
raise `YAMLValidationError` with the watermark's validation findings
when any exist. -/
def parse_watermark_from_dict (data : List (String × Yaml)) (base_path : String) :
    Except YamlErr WatermarkConfig := do
  let watermark_type ← reqShape ((aget data "type").getD (.str "text")).asStr
    "watermark type must be a string in the model"
  let position ← reqShape ((aget data "position").getD (.str "bottom-right")).asStr
    "position must be a string in the model"
  let opacity ← reqShape ((aget data "opacity").getD (.float (mkRat 3 10))).asNum
    "opacity must be a number in the model"
  let scale ← reqShape ((aget data "scale").getD (.float (mkRat 1 10))).asNum
    "scale must be a number in the model"
  let marginL ← reqShape (((aget data "margin").getD
      (.list [.float (mkRat 1 50), .float (mkRat 1 50)])).asList.bind
      (fun l => l.mapM Yaml.asNum)) "margin must be a list of numbers in the model"
  let margin ← match marginL with
    | [mx, my] => pure (mx, my)
    | _ => .error (.typeError "margin lists of length other than two are outside the model")
  let font_size ← reqShape ((aget data "font_size").getD (.float (mkRat 12 1))).asNum
    "font_size must be a number in the model"
  let font_family ← reqShape ((aget data "font_family").getD (.str "sans-serif")).asStr
    "font_family must be a string in the model"
  let font_weight ← reqShape ((aget data "font_weight").getD (.str "normal")).asStr
    "font_weight must be a string in the model"
  let font_color ← reqShape ((aget data "font_color").getD (.str "#000000")).asStr
    "font_color must be a string in the model"
  let (image_path, text) ←
    if watermark_type = "image" then
      match aget data "image_path" with
      | none => .error (.parseError "Missing required field for image watermark: 'image_path'")
      | some v => do
        let p ← reqShape v.asStr "image_path must be a string in the model"
        pure (some (base_path ++ "/" ++ p), (none : Option String))
    else if watermark_type = "text" then
      match aget data "text" with
      | none => .error (.parseError "Missing required field for text watermark: 'text'")
      | some v => do
        let t ← reqShape v.asStr "text must be a string in the model"
        pure ((none : Option String), some t)
    else
      .error (.parseError ("Invalid watermark type: '" ++ watermark_type ++
        "'. Must be 'text' or 'image'"))
  let watermark ← match mkWatermarkConfig image_path text position opacity scale
      margin font_size font_family font_weight font_color with
    | .ok w => pure w
    | .error msg => .error (.valueError msg)
  let errors := validate_watermark watermark
  if errors ≠ [] then .error (.validationError errors)
  else pure watermark

/-- The part of `_parse_preset_from_dict` (`yaml_parser.py` lines
172-254) before the final validation pass: required-field checks,
defaults, colorway resolution (string reference, name-only reference,
or inline definition) and watermark parsing, ending with the `Preset`
construction.  `registry` is the module-global `_COLORWAY_REGISTRY`
passed explicitly. -/
def parse_preset_core (registry : List (String × Colorway))
    (data : List (String × Yaml)) (base_path : String) :
    Except YamlErr Preset := do
  let nameY ← match aget data "name" with
    | some v => pure v
    | none => .error (.parseError "Missing required field: 'name'")
  let modeY ← match aget data "mode" with
    | some v => pure v
    | none => .error (.parseError "Missing required field: 'mode'")
  let name ← reqShape nameY.asStr "preset name must be a string in the model"
  let mode ← reqShape modeY.asStr "preset mode must be a string in the model"
  let figure_data ← reqShape ((aget data "figure").getD (.dict [])).asDict
    "'figure' must be a mapping in the model"
  let sizeY ← match aget figure_data "size" with
    | some v => pure v
    | none => .error (.parseError "Missing required field: 'figure.size'")
  let sizeL ← reqShape (sizeY.asList.bind (fun l => l.mapM Yaml.asNum))
    "figure.size must be a list of numbers in the model"
  let figure_size ← match sizeL with
    | [w, h] => pure (w, h)
    | _ => .error (.parseError "'figure.size' must be a list of two numbers")
  let dpi ← reqShape ((aget figure_data "dpi").getD (.int 300)).asNum
    "dpi must be a number in the model"
  let typography ← reqShape ((aget data "typography").getD (.dict [])).asDict
    "'typography' must be a mapping in the model"
  let font_family ← reqShape ((aget typography "font_family").getD (.str "sans-serif")).asStr
    "font_family must be a string in the model"
  let fontSizesD ← reqShape ((aget typography "font_sizes").getD (.dict [])).asDict
    "'font_sizes' must be a mapping in the model"
  let font_size ← reqShape (fontSizesD.mapM (fun kv => (kv.2.asNum).map (kv.1, ·)))
    "font sizes must be numbers in the model"
  let elements ← reqShape ((aget data "elements").getD (.dict [])).asDict
    "'elements' must be a mapping in the model"
  let line_width ← reqShape ((aget elements "line_width").getD (.float (mkRat 3 2))).asNum
    "line_width must be a number in the model"
  let marker_size ← reqShape ((aget elements "marker_size").getD (.float (mkRat 6 1))).asNum
    "marker_size must be a number in the model"
  let colorway ← match aget data "colorway" with
    | none => pure (none : Option Colorway)
    | some (.str s) =>
      match get_colorway registry s with
      | .ok c => pure (some c)
      | .error msg => .error (.valueError msg)
    | some (.dict cd) =>
      if (aget cd "name").isSome ∧ (aget cd "description").isNone ∧
          (aget cd "colors").isNone then
        match aget cd "name" with
        | some (.str s) =>
          match get_colorway registry s with
          | .ok c => pure (some c)
          | .error msg => .error (.valueError msg)
        | _ => .error (.typeError "colorway reference name must be a string in the model")
      else do
        let c ← parse_colorway_from_dict cd
        pure (some c)
    | some _ => .error (.typeError "colorway must be a string or mapping in the model")
  let watermark ← match aget data "watermark" with
    | none => pure (none : Option WatermarkConfig)
    | some v => do
      let wd ← reqShape v.asDict "'watermark' must be a mapping in the model"
      let w ← parse_watermark_from_dict wd base_path
      pure (some w)
  pure { name, mode, figure_size, dpi, font_family, font_size,
         line_width, marker_size, colorway, watermark }

/-- `_parse_preset_from_dict` (`yaml_parser.py` lines 172-261): the
construction above followed by the final `validate_preset` pass, which
raises `YAMLValidationError` whenever the findings list is non-empty. -/
def parse_preset_from_dict (registry : List (String × Colorway))
    (data : List (String × Yaml)) (base_path : String) :
    Except YamlErr Preset := do
  let preset ← parse_preset_core registry data base_path
  let errors := validate_preset preset
  if errors ≠ [] then .error (.validationError errors)
  else pure preset

/-- A value stored in matplotlib's global `rcParams`. -/
inductive RcVal where
  | str (s : String)
  | num (v : PyNum)
  | bool (b : Bool)
  | numPair (p : PyNum × PyNum)
  | strList (l : List String)
  | cycler (colors : List String)
  deriving DecidableEq, Repr

/-- matplotlib's global `rcParams` store.  The real `RcParams` mapping
holds a value for every rc key from interpreter start, so it is
modelled as a total map; consequently `dict(rcParams)` is the map
itself and `rcParams.update(full_copy)` replaces every key, i.e. is
assignment of the copy. -/
def RcParams := String → RcVal

/-- `rcParams[k] = v`. -/
def rcSet (d : RcParams) (k : String) (v : RcVal) : RcParams :=
  fun k' => if k' = k then v else d k'

/-- `MplFontSize.get(k, default)` keeping the Python number itself
(`preset.font_size.get(key, default)` stores the dict's own value). -/
def fsGetN (l : List (String × PyNum)) (k : String) (dflt : ℚ) : PyNum :=
  match aget l k with
  | some v => v
  | none => .float dflt

/-- `MatplotlibAdapter._configure_rcparams`
(`adapters/matplotlib.py` lines 324-384), key for key. -/
def configure_rcparams (p : Preset) (rc : RcParams) : RcParams :=
  let rc := rcSet rc "figure.figsize" (.numPair p.figure_size)
  let rc := rcSet rc "figure.dpi" (.num p.dpi)
  let rc := rcSet rc "savefig.dpi" (.num p.dpi)
  let rc := rcSet rc "savefig.bbox" (.str "tight")
  let rc :=
    if p.mode = "latex" then
      let rc := rcSet rc "font.family" (.str "serif")
      let rc := rcSet rc "mathtext.fontset" (.str "cm")
      rcSet rc "font.serif" (.strList ["cmr10", "Computer Modern Serif", "DejaVu Serif"])
    else
      rcSet rc "font.family" (.str p.font_family)
  let rc := rcSet rc "font.size" (.num (fsGetN p.font_size "label" (mkRat 12 1)))
  let rc := rcSet rc "axes.titlesize" (.num (fsGetN p.font_size "title" (mkRat 14 1)))
  let rc := rcSet rc "axes.titleweight" (.str "bold")
  let rc := rcSet rc "axes.labelsize" (.num (fsGetN p.font_size "label" (mkRat 12 1)))
  let rc := rcSet rc "axes.labelweight" (.str "normal")
  let rc := rcSet rc "xtick.labelsize" (.num (fsGetN p.font_size "tick" (mkRat 10 1)))
  let rc := rcSet rc "ytick.labelsize" (.num (fsGetN p.font_size "tick" (mkRat 10 1)))
  let rc := rcSet rc "legend.fontsize" (.num (fsGetN p.font_size "legend" (mkRat 10 1)))
  let rc := rcSet rc "legend.framealpha" (.num (.float (mkRat 9 10)))
  let rc := rcSet rc "legend.edgecolor" (.str "inherit")
  let rc := rcSet rc "lines.linewidth" (.num p.line_width)
  let rc := rcSet rc "lines.markersize" (.num p.marker_size)
  let rc := rcSet rc "axes.grid" (.bool true)
  let rc := rcSet rc "grid.alpha" (.num (.float (mkRat 3 10)))
  let rc := rcSet rc "grid.linewidth" (.num (.float (mkRat 1 2)))
  let rc := rcSet rc "axes.spines.top" (.bool false)
  let rc := rcSet rc "axes.spines.right" (.bool false)
  rcSet rc "text.usetex" (.bool false)

/-- The global `matplotlib.pyplot.savefig` callable, shared by the
matplotlib and seaborn adapters; each watermark wrapper closes over the
callable it saved. -/
inductive SaveFn where
  | base
  | mplWatermark (inner : SaveFn)
  | snsWatermark (inner : SaveFn)
  deriving DecidableEq, Repr

/-- `MatplotlibAdapter` instance state (`adapters/matplotlib.py`
`__init__`): the snapshot taken by `apply_style`, the active
watermark, and the saved `savefig`. -/
structure MplAdapter where
  original_rcparams : Option RcParams
  watermark_config : Option WatermarkConfig
  original_savefig : Option SaveFn

/-- A freshly constructed `MatplotlibAdapter`. -/
def MplAdapter.init : MplAdapter :=
  { original_rcparams := none, watermark_config := none, original_savefig := none }

/-- `plotly` template values set by
`PlotlyAdapter._configure_template` (`adapters/plotly.py` lines
344-440); fields the orchestration later mutates are included. -/
structure PlotlyTemplate where
  width : ℤ
  height : ℤ
  fontFamily : String
  fontSize : ℚ
  titleFontSize : ℚ
  axisTitleFontSize : ℚ
  tickFontSize : ℚ
  legendFontSize : ℚ
  gridWidth : ℚ
  axisLineWidth : ℚ
  tickLen : ℚ
  colorway : List String
  scatterLineWidth : ℚ
  scatterMarkerSize : ℚ
  titleXanchor : Option String
  deriving DecidableEq, Repr

/-- `screen_px_per_inch` (`plotly.py` line 358). -/
def screen_px_per_inch : ℚ := mkRat 150 1

/-- The plotly `dpi_scale` (`plotly.py` line 359): a fixed
points-to-CSS-pixel ratio of `96 / 72`, independent of the preset. -/
def plotly_dpi_scale : ℚ := mkRat 96 72

/-- `PlotlyAdapter._configure_template` (`plotly.py` lines 344-440):
the template built from a preset.  `int()` on the positive pixel sizes
is `⌊·⌋`. -/
def configure_template (p : Preset) : PlotlyTemplate :=
  { width := ⌊p.figure_size.1.toQ * screen_px_per_inch⌋
    height := ⌊p.figure_size.2.toQ * screen_px_per_inch⌋
    fontFamily := p.font_family
    fontSize := fsGet p.font_size "label" 12 * plotly_dpi_scale
    titleFontSize := fsGet p.font_size "title" 14 * plotly_dpi_scale
    axisTitleFontSize := fsGet p.font_size "label" 12 * plotly_dpi_scale
    tickFontSize := fsGet p.font_size "tick" 10 * plotly_dpi_scale
    legendFontSize := fsGet p.font_size "legend" 10 * plotly_dpi_scale
    gridWidth := mkRat 1 2 * plotly_dpi_scale
    axisLineWidth := mkRat 4 5 * plotly_dpi_scale
    tickLen := mkRat 4 1 * plotly_dpi_scale
    colorway := ["#1f77b4", "#ff7f0e", "#2ca02c", "#d62728", "#9467bd"]
    scatterLineWidth := p.line_width.toQ * plotly_dpi_scale
    scatterMarkerSize := p.marker_size.toQ * plotly_dpi_scale
    titleXanchor := none }

/-- The global `plotly.graph_objects.Figure.__init__` callable. -/
inductive FigInit where
  | base
  | watermarkWrapped (inner : FigInit)
  deriving DecidableEq, Repr

/-- `PlotlyAdapter` instance state (`adapters/plotly.py` `__init__`). -/
structure PlotlyAdapter where
  original_template : Option String
  current_template : Option PlotlyTemplate
  watermark_config : Option WatermarkConfig
  original_figure_init : Option FigInit
  deriving DecidableEq, Repr

/-- A freshly constructed `PlotlyAdapter`. -/
def PlotlyAdapter.init : PlotlyAdapter :=
  { original_template := none, current_template := none,
    watermark_config := none, original_figure_init := none }

/-- The altair font-size scale factor computed by
`AltairAdapter._configure_theme` (`adapters/altair.py` line 435):
`preset.dpi / 72.0` — the preset's *print* DPI over 72, not a fixed
screen ratio. -/
def altair_dpi_scale (p : Preset) : ℚ := p.dpi.toQ / mkRat 72 1

/-- The base theme dictionary `AltairAdapter._configure_theme` builds
(`altair.py` lines 443-506), restricted to its numeric typography and
sizing entries.  `screen_dpi` is a parameter because the call
`preset.get_display_dpi()` (line 440) has no definition anywhere in the
source: at run time it raises `AttributeError`, the surrounding
`except Exception: pass` swallows it, and the theme is never actually
registered. -/
structure AltairThemeConfig where
  viewWidth : ℤ
  viewHeight : ℤ
  font : String
  titleFontSize : ℚ
  axisTitleFontSize : ℚ
  axisLabelFontSize : ℚ
  legendFontSize : ℚ
  gridWidth : ℚ
  markStrokeWidth : ℚ
  markSize : ℚ
  deriving DecidableEq, Repr

/-- The theme-config literal of `_configure_theme` (`altair.py` lines
443-506) as a function of the unavailable `screen_dpi`. -/
def altair_theme_config (p : Preset) (screen_dpi : ℚ) : AltairThemeConfig :=
  let dpi_scale := altair_dpi_scale p
  { viewWidth := ⌊p.figure_size.1.toQ * screen_dpi⌋
    viewHeight := ⌊p.figure_size.2.toQ * screen_dpi⌋
    font := p.font_family
    titleFontSize := fsGet p.font_size "title" 14 * dpi_scale
    axisTitleFontSize := fsGet p.font_size "label" 12 * dpi_scale
    axisLabelFontSize := fsGet p.font_size "tick" 10 * dpi_scale
    legendFontSize := fsGet p.font_size "legend" 10 * dpi_scale
    gridWidth := mkRat 1 2 * dpi_scale
    markStrokeWidth := p.line_width.toQ * dpi_scale
    markSize := (p.marker_size.toQ * dpi_scale) ^ 2 }

/-- A theme registered with `altair.themes`:
either the colorway-only fallback theme of `apply_colorway`
(`altair.py` lines 163-176) or a merged base theme (lines 146-160,
unreachable because `_base_theme_config` is never set). -/
inductive AltairTheme where
  | colorwayOnly (category diverging ordinal : List String)
  | merged (base : AltairThemeConfig) (category diverging ordinal : List String)
  deriving DecidableEq, Repr

/-- The global `altair.Chart.save` callable. -/
inductive ChartSave where
  | base
  | watermarkWrapped (inner : ChartSave)
  deriving DecidableEq, Repr

/-- `AltairAdapter` instance state (`adapters/altair.py` `__init__`). -/
structure AltairAdapter where
  original_theme : Option String
  current_theme : Option AltairTheme
  base_theme_config : Option AltairThemeConfig
  watermark_config : Option WatermarkConfig
  deriving DecidableEq, Repr

/-- A freshly constructed `AltairAdapter`. -/
def AltairAdapter.init : AltairAdapter :=
  { original_theme := none, current_theme := none,
    base_theme_config := none, watermark_config := none }

/-- One call made into the external seaborn library.  The seaborn
global styling state is modelled as the trace of calls issued to it;
`setThemeSnapshot` is `set_theme(style=<dict returned by get_theme()>)`
and `setPaletteDefault` is `set_palette(color_palette())`. -/
inductive SnsCall where
  | setTheme (style : String) (context : String) (rc : List (String × RcVal))
  | setThemeSnapshot (snap : List SnsCall)
  | setContext (c : String)
  | setPalette (colors : List String)
  | setPaletteDefault

/-- `SeabornAdapter` instance state (`adapters/seaborn.py` `__init__`).
The `get_theme()` snapshot saved by `_save_original_settings` is the
seaborn call trace at save time. -/
structure SnsAdapter where
  original_theme : Option (List SnsCall)
  original_context : Option String
  watermark_config : Option WatermarkConfig
  original_savefig : Option SaveFn

/-- A freshly constructed `SeabornAdapter`. -/
def SnsAdapter.init : SnsAdapter :=
  { original_theme := none, original_context := none,
    watermark_config := none, original_savefig := none }

/-- The four libraries known to `DiscoveryService._LIBRARY_INFO`
(`core/discovery.py` lines 35-60). -/
inductive Lib where
  | matplotlib
  | seaborn
  | plotly
  | altair
  deriving DecidableEq, Repr

/-- The `library_name` of each adapter. -/
def Lib.libName : Lib → String
  | .matplotlib => "matplotlib"
  | .seaborn => "seaborn"
  | .plotly => "plotly"
  | .altair => "altair"

/-- The known-library lookup used by `DiscoveryService.get_library_info`. -/
def libOfName : String → Option Lib
  | "matplotlib" => some .matplotlib
  | "seaborn" => some .seaborn
  | "plotly" => some .plotly
  | "altair" => some .altair
  | _ => none

/-- `StyleRegistry` state (`core/registry.py`), four insertion-ordered
dictionaries keyed by adapter name. -/
structure StyleRegistryState where
  active_presets : List (String × Preset)
  active_colorways : List (String × Colorway)
  active_watermarks : List (String × WatermarkConfig)
  original_settings : List (String × List (String × RcVal))
  deriving DecidableEq, Repr

/-- An empty `StyleRegistry`. -/
def StyleRegistryState.init : StyleRegistryState :=
  { active_presets := [], active_colorways := [],
    active_watermarks := [], original_settings := [] }

/-- `StyleRegistry.clear_adapter` (`registry.py` lines 115-125). -/
def StyleRegistryState.clearAdapter (r : StyleRegistryState) (n : String) :
    StyleRegistryState :=
  { active_presets := apop r.active_presets n
    active_colorways := apop r.active_colorways n
    active_watermarks := apop r.active_watermarks n
    original_settings := apop r.original_settings n }

/-- `StyleRegistry.has_active_style` (`registry.py` lines 134-144). -/
def StyleRegistryState.hasActiveStyle (r : StyleRegistryState) (n : String) : Bool :=
  (aget r.active_presets n).isSome

/-- Exceptions raised by the orchestration layer. -/
inductive PyErr where
  | valueError (msg : String)
  | attributeError (msg : String)
  deriving DecidableEq, Repr

/-- The whole observable state of a process using `sane_figs`: the
module-level preset and colorway registries, each visualization
library's global styling state, the discovery availability of each
library, the one cached adapter instance per library, and the global
`StyleRegistry`. -/
structure SysState where
  presetRegistry : List (String × Preset)
  colorwayRegistry : List (String × Colorway)
  mplAvailable : Bool
  seabornAvailable : Bool
  plotlyAvailable : Bool
  altairAvailable : Bool
  rcParams : RcParams
  pltSavefig : SaveFn
  snsTrace : List SnsCall
  plotlyTemplates : List (String × PlotlyTemplate)
  plotlyDefault : String
  figureInit : FigInit
  altairRegistered : List String
  altairActive : String
  chartSave : ChartSave
  chartOriginalSave : Option ChartSave
  mplA : MplAdapter
  snsA : SnsAdapter
  plyA : PlotlyAdapter
  altA : AltairAdapter
  styleRegistry : StyleRegistryState

/-- Availability of a library in the modelled environment. -/
def SysState.availableFor (s : SysState) : Lib → Bool
  | .matplotlib => s.mplAvailable
  | .seaborn => s.seabornAvailable
  | .plotly => s.plotlyAvailable
  | .altair => s.altairAvailable

/-- `MatplotlibAdapter.apply_colorway` (`matplotlib.py` lines 121-134):
set the color cycle to the colorway's categorical list. -/
def mplApplyColorway (cw : Colorway) (s : SysState) : SysState :=
  if s.mplAvailable = false then s
  else { s with rcParams := rcSet s.rcParams "axes.prop_cycle" (.cycler cw.categorical) }

/-- `MatplotlibAdapter.add_watermark` (`matplotlib.py` lines 136-172):
store the config, save the current `plt.savefig` once, and patch
`plt.savefig` with a wrapper closing over the saved callable. -/
def mplAddWatermark (w : WatermarkConfig) (s : SysState) : SysState :=
  if s.mplAvailable = false then s
  else
    let saved := match s.mplA.original_savefig with
      | none => s.pltSavefig
      | some f => f
    { s with
      mplA := { s.mplA with watermark_config := some w, original_savefig := some saved }
      pltSavefig := .mplWatermark saved }

/-- `MatplotlibAdapter.apply_style` (`matplotlib.py` lines 76-101):
snapshot the *current* rcParams (unconditionally overwriting any
earlier snapshot), configure rcParams, then apply the colorway and
watermark if present.  `_handle_version_specifics` is a global no-op:
`reversed(VERSION_HANDLERS.items())` visits the `(2, 0, 0)` entry
first, whose handler is `pass`, and breaks. -/
def mplApplyStyle (p : Preset) (s : SysState) : SysState × Option PyErr :=
  if s.mplAvailable = false then (s, none)
  else
    let s := { s with
      mplA := { s.mplA with original_rcparams := some s.rcParams }
      rcParams := configure_rcparams p s.rcParams }
    let s := match p.colorway with
      | some cw => mplApplyColorway cw s
      | none => s
    let s := match p.watermark with
      | some w => mplAddWatermark w s
      | none => s
    (s, none)

/-- `MatplotlibAdapter.reset_style` (`matplotlib.py` lines 103-119):
restore the rcParams snapshot if one exists (a full-copy
`rcParams.update`, i.e. assignment — see `RcParams`), restore and
forget the saved `savefig` if one exists, and drop the watermark
config.  The rcParams snapshot itself is *not* cleared. -/
def mplResetStyle (s : SysState) : SysState :=
  if s.mplAvailable = false then s
  else
    let s := match s.mplA.original_rcparams with
      | some o => { s with rcParams := o }
      | none => s
    let s := match s.mplA.original_savefig with
      | some f => { s with pltSavefig := f,
                           mplA := { s.mplA with original_savefig := none } }
      | none => s
    { s with mplA := { s.mplA with watermark_config := none } }

/-- `SeabornAdapter.apply_colorway` (`seaborn.py` lines 144-156). -/
def snsApplyColorway (cw : Colorway) (s : SysState) : SysState :=
  if s.seabornAvailable = false then s
  else { s with snsTrace := s.snsTrace ++ [SnsCall.setPalette cw.categorical] }

/-- `SeabornAdapter.add_watermark` (`seaborn.py` lines 158-194):
patches the same global `plt.savefig` the matplotlib adapter patches. -/
def snsAddWatermark (w : WatermarkConfig) (s : SysState) : SysState :=
  if s.seabornAvailable = false then s
  else
    let saved := match s.snsA.original_savefig with
      | none => s.pltSavefig
      | some f => f
    { s with
      snsA := { s.snsA with watermark_config := some w, original_savefig := some saved }
      pltSavefig := .snsWatermark saved }

/-- `SeabornAdapter._configure_theme` (`seaborn.py` lines 363-393):
one `set_theme(style=..., context=..., rc=...)` call. -/
def snsConfigureTheme (p : Preset) (s : SysState) : SysState :=
  let style := if p.mode = "article" then "whitegrid" else "darkgrid"
  let context := if p.mode = "article" then "paper" else "talk"
  let baseParams : List (String × RcVal) :=
    [("axes.labelsize", .num (fsGetN p.font_size "label" (mkRat 12 1))),
     ("xtick.labelsize", .num (fsGetN p.font_size "tick" (mkRat 10 1))),
     ("ytick.labelsize", .num (fsGetN p.font_size "tick" (mkRat 10 1))),
     ("legend.fontsize", .num (fsGetN p.font_size "legend" (mkRat 10 1))),
     ("axes.titlesize", .num (fsGetN p.font_size "title" (mkRat 14 1))),
     ("lines.linewidth", .num p.line_width),
     ("font.family", .str p.font_family)]
  let styleParams :=
    if p.mode = "latex" then
      let sp := aset baseParams "font.family" (.str "serif")
      let sp := aset sp "mathtext.fontset" (.str "cm")
      aset sp "font.serif" (.strList ["cmr10", "Computer Modern Serif", "DejaVu Serif"])
    else baseParams
  { s with snsTrace := s.snsTrace ++ [SnsCall.setTheme style context styleParams] }

/-- `SeabornAdapter.apply_style` (`seaborn.py` lines 79-116): save the
original theme/context, configure, apply colorway/watermark, then
crash: `preset.title_config` (line 107) raises `AttributeError`
because the `Preset` dataclass has no such field.  All effects up to
that point persist. -/
def snsApplyStyle (p : Preset) (s : SysState) : SysState × Option PyErr :=
  if s.seabornAvailable = false then (s, none)
  else
    let s := { s with snsA := { s.snsA with
      original_theme := some s.snsTrace, original_context := some "notebook" } }
    let s := snsConfigureTheme p s
    let s := match p.colorway with
      | some cw => snsApplyColorway cw s
      | none => s
    let s := match p.watermark with
      | some w => snsAddWatermark w s
      | none => s
    (s, some (.attributeError "'Preset' object has no attribute 'title_config'"))

/-- `SeabornAdapter.reset_style` (`seaborn.py` lines 118-142):
re-issue the saved theme and context, reset the palette to the current
default, restore the saved `savefig`, and drop the watermark config. -/
def snsResetStyle (s : SysState) : SysState :=
  if s.seabornAvailable = false then s
  else
    let s := match s.snsA.original_theme with
      | some snap => { s with snsTrace := s.snsTrace ++ [SnsCall.setThemeSnapshot snap] }
      | none => s
    let s := match s.snsA.original_context with
      | some c => { s with snsTrace := s.snsTrace ++ [SnsCall.setContext c] }
      | none => s
    let s := { s with snsTrace := s.snsTrace ++ [SnsCall.setPaletteDefault] }
    let s := match s.snsA.original_savefig with
      | some f => { s with pltSavefig := f,
                           snsA := { s.snsA with original_savefig := none } }
      | none => s
    { s with snsA := { s.snsA with watermark_config := none } }

/-- `PlotlyAdapter.apply_colorway` (`plotly.py` lines 144-170): update
the current template's colorway and re-register it, or fall back to
mutating the registered `"plotly"` template (the `except: pass`
swallows a missing registry entry). -/
def plotlyApplyColorway (cw : Colorway) (s : SysState) : SysState :=
  if s.plotlyAvailable = false then s
  else
    match s.plyA.current_template with
    | some t =>
      let t := { t with colorway := cw.categorical }
      { s with plyA := { s.plyA with current_template := some t }
               plotlyTemplates := aset s.plotlyTemplates "sane_figs" t
               plotlyDefault := "sane_figs" }
    | none =>
      match aget s.plotlyTemplates "plotly" with
      | some t =>
        let t := { t with colorway := cw.categorical }
        { s with plotlyTemplates :=
                   aset (aset s.plotlyTemplates "plotly" t) "sane_figs" t
                 plotlyDefault := "sane_figs" }
      | none => s

/-- `PlotlyAdapter.add_watermark` (`plotly.py` lines 172-214): save
`Figure.__init__` once and patch it with a watermarking wrapper. -/
def plotlyAddWatermark (w : WatermarkConfig) (s : SysState) : SysState :=
  if s.plotlyAvailable = false then s
  else
    let saved := match s.plyA.original_figure_init with
      | none => s.figureInit
      | some f => f
    { s with
      plyA := { s.plyA with watermark_config := some w,
                            original_figure_init := some saved }
      figureInit := .watermarkWrapped saved }

/-- `PlotlyAdapter.apply_style` (`plotly.py` lines 75-112): save the
current default template name, build and register the `"sane_figs"`
template, apply colorway/watermark, then crash at
`preset.title_config` (line 103, `AttributeError`: the `Preset`
dataclass has no such field).  Effects up to that point persist. -/
def plotlyApplyStyle (p : Preset) (s : SysState) : SysState × Option PyErr :=
  if s.plotlyAvailable = false then (s, none)
  else
    let s := { s with plyA := { s.plyA with original_template := some s.plotlyDefault } }
    let t := configure_template p
    let s := { s with plyA := { s.plyA with current_template := some t }
                      plotlyTemplates := aset s.plotlyTemplates "sane_figs" t
                      plotlyDefault := "sane_figs" }
    let s := match p.colorway with
      | some cw => plotlyApplyColorway cw s
      | none => s
    let s := match p.watermark with
      | some w => plotlyAddWatermark w s
      | none => s
    (s, some (.attributeError "'Preset' object has no attribute 'title_config'"))

/-- `PlotlyAdapter.reset_style` (`plotly.py` lines 114-142): restore
the saved default template name and `Figure.__init__`, and clear the
current template and watermark config. -/
def plotlyResetStyle (s : SysState) : SysState :=
  if s.plotlyAvailable = false then s
  else
    let s := match s.plyA.original_template with
      | some t => { s with plotlyDefault := t }
      | none => s
    let s := match s.plyA.original_figure_init with
      | some f => { s with figureInit := f,
                           plyA := { s.plyA with original_figure_init := none } }
      | none => s
    { s with plyA := { s.plyA with current_template := none, watermark_config := none } }

/-- `AltairAdapter.apply_colorway` (`altair.py` lines 132-178).  The
`_base_theme_config` branch is present for fidelity but unreachable:
`_configure_theme` always aborts before setting it. -/
def altairApplyColorway (cw : Colorway) (s : SysState) : SysState :=
  if s.altairAvailable = false then s
  else
    match s.altA.base_theme_config with
    | some bc =>
      let th : AltairTheme := .merged bc cw.categorical cw.diverging cw.qualitative
      { s with altairRegistered :=
                 if "sane_figs" ∈ s.altairRegistered then s.altairRegistered
                 else s.altairRegistered ++ ["sane_figs"]
               altairActive := "sane_figs"
               altA := { s.altA with current_theme := some th } }
    | none =>
      let th : AltairTheme := .colorwayOnly cw.categorical cw.diverging cw.qualitative
      { s with altairRegistered :=
                 if "sane_figs" ∈ s.altairRegistered then s.altairRegistered
                 else s.altairRegistered ++ ["sane_figs"]
               altairActive := "sane_figs"
               altA := { s.altA with current_theme := some th } }

/-- `AltairAdapter.add_watermark` (`altair.py` lines 180-221): save
`alt.Chart.save` once into the *class attribute* `_original_save` and
patch `Chart.save` with a watermarking wrapper. -/
def altairAddWatermark (w : WatermarkConfig) (s : SysState) : SysState :=
  if s.altairAvailable = false then s
  else
    let saved := match s.chartOriginalSave with
      | none => s.chartSave
      | some f => f
    { s with
      altA := { s.altA with watermark_config := some w }
      chartOriginalSave := some saved
      chartSave := .watermarkWrapped saved }

/-- `AltairAdapter.apply_style` (`altair.py` lines 75-112): save the
active theme name; `_configure_theme` silently does nothing (its body
raises `AttributeError` at the undefined `preset.get_display_dpi()`
and the `except Exception: pass` swallows it); apply
colorway/watermark; then crash at `preset.title_config` (line 103,
`AttributeError`). -/
def altairApplyStyle (p : Preset) (s : SysState) : SysState × Option PyErr :=
  if s.altairAvailable = false then (s, none)
  else
    let s := { s with altA := { s.altA with original_theme := some s.altairActive } }
    let s := match p.colorway with
      | some cw => altairApplyColorway cw s
      | none => s
    let s := match p.watermark with
      | some w => altairAddWatermark w s
      | none => s
    (s, some (.attributeError "'Preset' object has no attribute 'title_config'"))

/-- `AltairAdapter.reset_style` (`altair.py` lines 114-130): re-enable
the saved theme (the `except: pass` swallows a failure to enable an
unregistered name) and clear the current theme and watermark config.
`Chart.save` is *not* restored here. -/
def altairResetStyle (s : SysState) : SysState :=
  if s.altairAvailable = false then s
  else
    let s := match s.altA.original_theme with
      | some t =>
        if t ∈ s.altairRegistered then { s with altairActive := t } else s
      | none => s
    { s with altA := { s.altA with current_theme := none, watermark_config := none } }

/-- `adapter.apply_style(preset)` dispatched on the library. -/
def applyStyleFor : Lib → Preset → SysState → SysState × Option PyErr
  | .matplotlib => mplApplyStyle
  | .seaborn => snsApplyStyle
  | .plotly => plotlyApplyStyle
  | .altair => altairApplyStyle

/-- `adapter.reset_style()` dispatched on the library. -/
def resetStyleFor : Lib → SysState → SysState
  | .matplotlib => fun s => mplResetStyle s
  | .seaborn => fun s => snsResetStyle s
  | .plotly => fun s => plotlyResetStyle s
  | .altair => fun s => altairResetStyle s

/-- `DiscoveryService.get_adapter` (`discovery.py` lines 127-159):
raises `ValueError` (via `get_library_info`) for a name outside the
four known libraries, returns `None` for a known but unavailable
library, and the adapter otherwise.  The memoization caches are
behavior-preserving and omitted. -/
def get_adapter (s : SysState) (name : String) : Except PyErr (Option Lib) :=
  match libOfName name with
  | none => .error (.valueError ("Unknown library '" ++ name ++
      "'. Available libraries: " ++
      pyListStr ["matplotlib", "seaborn", "plotly", "altair"]))
  | some l => .ok (if s.availableFor l then some l else none)

/-- `DiscoveryService.get_all_available_adapters`
(`discovery.py` lines 161-173). -/
def get_all_available_adapters (s : SysState) : List Lib :=
  [Lib.matplotlib, Lib.seaborn, Lib.plotly, Lib.altair].filter s.availableFor

/-- The adapter-selection step of `apply_global_setup`
(`setup.py` lines 70-78) and `PublicationStyleContext.__enter__`
(lines 164-172): all available adapters, or per-name lookup with
`None` results skipped. -/
def selectAdapters (s : SysState) : Option (List String) → Except PyErr (List Lib)
  | none => .ok (get_all_available_adapters s)
  | some names =>
    names.foldlM (fun acc n => do
      let oa ← get_adapter s n
      pure (match oa with
        | some l => acc ++ [l]
        | none => acc)) []

/-- The colorway-resolution step of `apply_global_setup`
(`setup.py` lines 42-57): an explicit `Colorway`, a name looked up in
the colorway registry (which may raise `ValueError`), the preset's own
colorway, or the mode-dependent default. -/
def resolveColorway (s : SysState) (mode : String) (p : Preset)
    (arg : Option (String ⊕ Colorway)) : Except PyErr Colorway :=
  match arg with
  | none =>
    .ok (match p.colorway with
      | some cw => cw
      | none => if mode = "presentation" then VIBRANT_COLORWAY else DEFAULT_COLORWAY)
  | some (.inl nm) =>
    match get_colorway s.colorwayRegistry nm with
    | .ok c => .ok c
    | .error m => .error (.valueError m)
  | some (.inr c) => .ok c

/-- The watermark-promotion step of `apply_global_setup`
(`setup.py` lines 63-68): a string is promoted with
`create_text_watermark` (whose constructor validation, on these
defaults, cannot fail but is modelled as raising `ValueError` if it
did). -/
def resolveWatermark (arg : Option (String ⊕ WatermarkConfig)) :
    Except PyErr (Option WatermarkConfig) :=
  match arg with
  | none => .ok none
  | some (.inl t) =>
    match createTextWatermark t with
    | .ok w => .ok (some w)
    | .error m => .error (.valueError m)
  | some (.inr w) => .ok (some w)

/-- The per-adapter loop of `apply_global_setup` (`setup.py` lines
80-94): save the adapter's "original settings" into the style registry
(always `{}`: `_get_adapter_original_settings` reads
`BaseAdapter._original_settings`, which no adapter ever writes), apply
the style (whose exception aborts the loop), and record the preset,
colorway and watermark. -/
def styleLoop (p : Preset) : List Lib → SysState → SysState × Option PyErr
  | [], s => (s, none)
  | l :: rest, s =>
    let s := { s with styleRegistry := { s.styleRegistry with
      original_settings := aset s.styleRegistry.original_settings l.libName [] } }
    match applyStyleFor l p s with
    | (s, some e) => (s, some e)
    | (s, none) =>
      let sr := { s.styleRegistry with
        active_presets := aset s.styleRegistry.active_presets l.libName p }
      let sr := match p.colorway with
        | some cw => { sr with active_colorways := aset sr.active_colorways l.libName cw }
        | none => sr
      let sr := match p.watermark with
        | some w => { sr with active_watermarks := aset sr.active_watermarks l.libName w }
        | none => sr
      styleLoop p rest { s with styleRegistry := sr }

/-- `apply_global_setup` (`setup.py` lines 14-94).  The `Preset` object
returned by `get_preset` *is* the registry's stored object, so the
assignments `preset.colorway = ...` (line 60) and
`preset.watermark = ...` (line 68) are modelled as updates of the
registry entry; both happen before adapter selection.  When an
exception is raised part-way, the state mutations made so far persist,
matching Python. -/
def apply_global_setup (mode : String) (libraries : Option (List String))
    (colorway : Option (String ⊕ Colorway))
    (watermark : Option (String ⊕ WatermarkConfig))
    (s : SysState) : SysState × Option PyErr :=
  match aget s.presetRegistry mode with
  | none => (s, some (.valueError ("Unknown preset '" ++ mode ++
      "'. Available presets: " ++ pyListStr (s.presetRegistry.map (·.1)))))
  | some preset =>
    match resolveColorway s mode preset colorway with
    | .error e => (s, some e)
    | .ok pc =>
      let preset := { preset with colorway := some pc }
      let s := { s with presetRegistry := aset s.presetRegistry mode preset }
      match resolveWatermark watermark with
      | .error e => (s, some e)
      | .ok owm =>
        let preset := match owm with
          | some w => { preset with watermark := some w }
          | none => preset
        let s := match owm with
          | some _ => { s with presetRegistry := aset s.presetRegistry mode preset }
          | none => s
        match selectAdapters s libraries with
        | .error e => (s, some e)
        | .ok adapters => styleLoop preset adapters s

/-- The loop body of `reset_global_setup` (`setup.py` lines 97-119):
look each name up (which may raise for an unknown explicit name),
reset and clear. -/
def resetLoop : List String → SysState → SysState × Option PyErr
  | [], s => (s, none)
  | n :: rest, s =>
    match get_adapter s n with
    | .error e => (s, some e)
    | .ok none => resetLoop rest s
    | .ok (some l) =>
      let s := resetStyleFor l s
      let s := { s with styleRegistry := s.styleRegistry.clearAdapter n }
      resetLoop rest s

/-- `reset_global_setup` (`setup.py` lines 97-119). -/
def reset_global_setup (libraries : Option (List String)) (s : SysState) :
    SysState × Option PyErr :=
  let names := match libraries with
    | none => s.styleRegistry.active_presets.map (·.1)
    | some ns => ns
  resetLoop names s

/-- The per-adapter loop of `PublicationStyleContext.__enter__`
(`setup.py` lines 177-231): unlike `apply_global_setup`, the preset
lookup, colorway resolution and registry-object mutation are repeated
*inside* the loop, once per selected adapter. -/
def ctxEnterLoop (mode : String) (cw : Option (String ⊕ Colorway))
    (wm : Option (String ⊕ WatermarkConfig)) :
    List Lib → SysState → SysState × Option PyErr
  | [], s => (s, none)
  | l :: rest, s =>
    let s := { s with styleRegistry := { s.styleRegistry with
      original_settings := aset s.styleRegistry.original_settings l.libName [] } }
    match aget s.presetRegistry mode with
    | none => (s, some (.valueError ("Unknown preset '" ++ mode ++
        "'. Available presets: " ++ pyListStr (s.presetRegistry.map (·.1)))))
    | some preset =>
      match resolveColorway s mode preset cw with
      | .error e => (s, some e)
      | .ok pc =>
        let preset := { preset with colorway := some pc }
        let s := { s with presetRegistry := aset s.presetRegistry mode preset }
        match resolveWatermark wm with
        | .error e => (s, some e)
        | .ok owm =>
          let preset := match owm with
            | some w => { preset with watermark := some w }
            | none => preset
          let s := match owm with
            | some _ => { s with presetRegistry := aset s.presetRegistry mode preset }
            | none => s
          match applyStyleFor l preset s with
          | (s, some e) => (s, some e)
          | (s, none) =>
            let sr := { s.styleRegistry with
              active_presets := aset s.styleRegistry.active_presets l.libName preset }
            let sr := match preset.colorway with
              | some c => { sr with active_colorways := aset sr.active_colorways l.libName c }
              | none => sr
            let sr := match preset.watermark with
              | some w => { sr with active_watermarks := aset sr.active_watermarks l.libName w }
              | none => sr
            ctxEnterLoop mode cw wm rest { s with styleRegistry := sr }

/-- `PublicationStyleContext.__enter__` (`setup.py` lines 157-232):
select adapters, record their names in `_active_libraries`, then run
the styling loop.  The returned name list is fully populated even when
the loop raises part-way (the assignment at line 175 happens first). -/
def ctxEnter (mode : String) (libraries : Option (List String))
    (cw : Option (String ⊕ Colorway)) (wm : Option (String ⊕ WatermarkConfig))
    (s : SysState) : SysState × Option PyErr × List String :=
  match selectAdapters s libraries with
  | .error e => (s, some e, [])
  | .ok adapters =>
    let libs := adapters.map Lib.libName
    let (s, e) := ctxEnterLoop mode cw wm adapters s
    (s, e, libs)

/-- The loop of `PublicationStyleContext.__exit__` (`setup.py` lines
243-248): look up each recorded adapter, reset it, clear its registry
record. -/
def ctxExitLoop : List String → SysState → SysState × Option PyErr
  | [], s => (s, none)
  | n :: rest, s =>
    match get_adapter s n with
    | .error e => (s, some e)
    | .ok none => ctxExitLoop rest s
    | .ok (some l) =>
      let s := resetStyleFor l s
      let s := { s with styleRegistry := s.styleRegistry.clearAdapter n }
      ctxExitLoop rest s

/-- `PublicationStyleContext.__exit__` (`setup.py` lines 234-248):
its body ignores the exception arguments entirely. -/
def ctxExit (activeLibs : List String) (s : SysState) : SysState × Option PyErr :=
  ctxExitLoop activeLibs s

/-- The Python `with PublicationStyleContext(...): body` statement.
The body is modelled by whether it raises (`bodyRaises`); modelled
bodies do not touch the styling state.  `__enter__` raising skips body
and `__exit__`; otherwise `__exit__` runs unconditionally — also when
the body raised — and, since it returns `None`, the body's exception
then propagates.  Result: final state, exception escaping the with
statement (if any), and whether the body's own exception propagated. -/
def withBlock (mode : String) (libraries : Option (List String))
    (cw : Option (String ⊕ Colorway)) (wm : Option (String ⊕ WatermarkConfig))
    (bodyRaises : Bool) (s : SysState) : SysState × Option PyErr × Bool :=
  match ctxEnter mode libraries cw wm s with
  | (s1, some e, _) => (s1, some e, false)
  | (s1, none, libs) =>
    match ctxExit libs s1 with
    | (s2, some e) => (s2, some e, false)
    | (s2, none) => (s2, none, bodyRaises)

/-- Which branch the watermark-rendering dispatch takes.  -/
inductive WatermarkKind where
  | text
  | image
  | skip
  deriving DecidableEq, Repr

/-- The dispatch of `MatplotlibAdapter._add_watermark_to_figure`
(`matplotlib.py` lines 174-185; the seaborn, plotly and altair
adapters dispatch identically): the text branch is checked first, so a
config carrying both renders the text. -/
def watermark_render_kind (c : WatermarkConfig) : WatermarkKind :=
  if c.text.isSome then .text
  else if c.image_path.isSome then .image
  else .skip

/-- A generic pre-styling matplotlib rcParams store, carrying
matplotlib's default figure size. -/
def rc0 : RcParams := fun k =>
  if k = "figure.figsize" then .numPair (.float (mkRat 32 5), .float (mkRat 24 5)) else .str "default"

/-- A concrete process state: built-in article/presentation presets
registered, no library available, nothing styled. -/
def baseState : SysState :=
  { presetRegistry := [("article", ARTICLE_PRESET), ("presentation", PRESENTATION_PRESET)]
    colorwayRegistry := [("default", DEFAULT_COLORWAY), ("vibrant", VIBRANT_COLORWAY)]
    mplAvailable := false
    seabornAvailable := false
    plotlyAvailable := false
    altairAvailable := false
    rcParams := rc0
    pltSavefig := .base
    snsTrace := []
    plotlyTemplates := []
    plotlyDefault := "plotly"
    figureInit := .base
    altairRegistered := ["default"]
    altairActive := "default"
    chartSave := .base
    chartOriginalSave := none
    mplA := .init
    snsA := .init
    plyA := .init
    altA := .init
    styleRegistry := .init }

/-- `baseState` with only matplotlib importable. -/
def mplOnlyState : SysState := { baseState with mplAvailable := true }

/-- C2: for all figure sizes, watermark sizes and margins in `[0, 1]`,
`get_watermark_position` maps the five named positions to the
specified coordinates ('top-left' to `(margin_x·W, H − h − margin_y·H)`,
'top-right' to `(W − w − margin_x·W, H − h − margin_y·H)`,
'bottom-left' to `(margin_x·W, margin_y·H)`, 'bottom-right' to
`(W − w − margin_x·W, margin_y·H)`, 'center' to
`((W−w)/2, (H−h)/2)`); and with `W = H = 100`, `w = h = 10`,
margins `(0.02, 0.02)`: 'top-left' yields `(2.0, 88.0)`,
'bottom-right' yields `(88.0, 2.0)`, 'center' yields `(45.0, 45.0)`. -/
theorem c2_watermark_positions :
    (∀ W H w h mx my : ℚ, 0 ≤ mx → mx ≤ 1 → 0 ≤ my → my ≤ 1 →
      get_watermark_position "top-left" W H w h mx my
          = .ok (mx * W, H - h - my * H) ∧
      get_watermark_position "top-right" W H w h mx my
          = .ok (W - w - mx * W, H - h - my * H) ∧
      get_watermark_position "bottom-left" W H w h mx my
          = .ok (mx * W, my * H) ∧
      get_watermark_position "bottom-right" W H w h mx my
          = .ok (W - w - mx * W, my * H) ∧
      get_watermark_position "center" W H w h mx my
          = .ok ((W - w) / 2, (H - h) / 2)) ∧
    get_watermark_position "top-left" 100 100 10 10 0.02 0.02 = .ok (2.0, 88.0) ∧
    get_watermark_position "bottom-right" 100 100 10 10 0.02 0.02 = .ok (88.0, 2.0) ∧
    get_watermark_position "center" 100 100 10 10 0.02 0.02 = .ok (45.0, 45.0) := by
  refine ⟨?_, ?_, ?_, ?_⟩
  · intro W H w h mx my _ _ _ _
    refine ⟨?_, ?_, ?_, ?_, ?_⟩ <;> simp [get_watermark_position] <;>
      constructor <;> ring
  · simp [get_watermark_position]; norm_num
  · simp [get_watermark_position]; norm_num
  · simp [get_watermark_position]; norm_num

/-- Witness for C2 at a concrete input. -/
theorem c2_watermark_positions_witness :
    get_watermark_position "top-left" 100 100 10 10 0.02 0.02
      = .ok (0.02 * 100, 100 - 10 - 0.02 * 100) :=
  (c2_watermark_positions.1 100 100 10 10 0.02 0.02 (by norm_num) (by norm_num)
    (by norm_num) (by norm_num)).1

/-- C8 counterexample: a config built with a valid image path *and* a
text is accepted, but the rendering dispatch takes the *text* branch
and ignores the image — the opposite of the claimed "text is ignored
in favor of the image". -/
theorem c8_counterexample :
    (mkWatermarkConfig (some "logo.png") (some "draft") "bottom-right" (.float (mkRat 3 10))
        (.float (mkRat 1 10)) (.float (mkRat 1 50), .float (mkRat 1 50)) (.float (mkRat 12 1)) "sans-serif"
        "normal" "#000000").map watermark_render_kind = .ok .text ∧
    (mkWatermarkConfig (some "logo.png") (some "draft") "bottom-right" (.float (mkRat 3 10))
        (.float (mkRat 1 10)) (.float (mkRat 1 50), .float (mkRat 1 50)) (.float (mkRat 12 1)) "sans-serif"
        "normal" "#000000").map watermark_render_kind ≠ .ok .image := by
  decide

/-- C8, amended: construction with both `text` and `image_path` absent
raises; `opacity = 1.5` raises; `margin = (1.5, 0.5)` raises; a valid
image path together with a text is accepted — and when rendered, the
*image* is ignored in favor of the text (the dispatch checks the text
branch first). -/
theorem c8_watermark_construction :
    mkWatermarkConfig none none "bottom-right" (.float (mkRat 3 10)) (.float (mkRat 1 10))
      (.float (mkRat 1 50), .float (mkRat 1 50)) (.float (mkRat 12 1)) "sans-serif" "normal" "#000000"
      = .error "Either image_path or text must be provided." ∧
    mkWatermarkConfig none (some "draft") "bottom-right" (.float (mkRat 3 2)) (.float (mkRat 1 10))
      (.float (mkRat 1 50), .float (mkRat 1 50)) (.float (mkRat 12 1)) "sans-serif" "normal" "#000000"
      = .error "Opacity must be between 0.0 and 1.0, got 1.5" ∧
    mkWatermarkConfig none (some "draft") "bottom-right" (.float (mkRat 3 10)) (.float (mkRat 1 10))
      (.float (mkRat 3 2), .float (mkRat 1 2)) (.float (mkRat 12 1)) "sans-serif" "normal" "#000000"
      = .error "Margin values must be between 0.0 and 1.0, got (1.5, 0.5)" ∧
    (mkWatermarkConfig (some "logo.png") (some "draft") "bottom-right" (.float (mkRat 3 10))
      (.float (mkRat 1 10)) (.float (mkRat 1 50), .float (mkRat 1 50)) (.float (mkRat 12 1)) "sans-serif" "normal"
      "#000000").map watermark_render_kind = .ok .text := by
  decide

/-- C9: `MatplotlibAdapter.reset_style` is idempotent — running it
twice equals running it once on the entire process state — and calling
it on a freshly constructed adapter (no prior `apply_style`) leaves the
state exactly unchanged.  It is total by construction: no operation in
its body can raise. -/
theorem c9_reset_idempotent_total :
    (∀ s : SysState, mplResetStyle (mplResetStyle s) = mplResetStyle s) ∧
    (∀ s : SysState, s.mplA = MplAdapter.init → mplResetStyle s = s) := by
  constructor
  · intro s
    obtain ⟨pr, cr, mav, sav, pav, aav, rc, sf, tr, pt, pd, fi, ar, aa, cs, cos,
      ma, sa, pa, al, reg⟩ := s
    obtain ⟨orc, wc, osf⟩ := ma
    cases mav <;> cases orc <;> cases osf <;> rfl
  · intro s h
    obtain ⟨pr, cr, mav, sav, pav, aav, rc, sf, tr, pt, pd, fi, ar, aa, cs, cos,
      ma, sa, pa, al, reg⟩ := s
    cases h
    cases mav <;> rfl

/-- Witness for C9 at a concrete state. -/
theorem c9_reset_idempotent_total_witness :
    mplResetStyle mplOnlyState = mplOnlyState :=
  c9_reset_idempotent_total.2 mplOnlyState rfl

/-- C6 counterexample: the altair adapter's point-to-pixel factor for
the article preset (dpi 300) is `300/72 = 25/6`, which is not the fixed
screen ratio `96/72` the claim asserts, differs from the plotly
adapter's fixed factor, and changes with the preset's dpi
(presentation, dpi 150, gives `25/12`). -/
theorem c6_counterexample :
    altair_dpi_scale ARTICLE_PRESET = 25 / 6 ∧
    altair_dpi_scale ARTICLE_PRESET ≠ 96 / 72 ∧
    altair_dpi_scale ARTICLE_PRESET ≠ plotly_dpi_scale ∧
    altair_dpi_scale ARTICLE_PRESET ≠ altair_dpi_scale PRESENTATION_PRESET := by
  refine ⟨?_, ?_, ?_, ?_⟩ <;>
    norm_num [altair_dpi_scale, plotly_dpi_scale, ARTICLE_PRESET,
      PRESENTATION_PRESET, PyNum.toQ]

/-- C6, amended: only the plotly adapter converts point font sizes with
the fixed 96-DPI screen ratio `96/72`, independent of the preset's
`dpi` field; the altair adapter's conversion factor is
`preset.dpi / 72` — the preset's *print* DPI — and moreover its theme
configuration aborts before registration (the undefined
`preset.get_display_dpi()` raises and is swallowed), so a plain
`apply_style` registers and activates no altair theme at all. -/
theorem c6_font_conversion :
    plotly_dpi_scale = 96 / 72 ∧
    (∀ (p : Preset) (d : PyNum),
      configure_template { p with dpi := d } = configure_template p) ∧
    (∀ p : Preset,
      (configure_template p).fontSize = fsGet p.font_size "label" 12 * (96 / 72) ∧
      (configure_template p).titleFontSize = fsGet p.font_size "title" 14 * (96 / 72) ∧
      (configure_template p).tickFontSize = fsGet p.font_size "tick" 10 * (96 / 72) ∧
      (configure_template p).legendFontSize = fsGet p.font_size "legend" 10 * (96 / 72)) ∧
    (∀ p : Preset, altair_dpi_scale p = p.dpi.toQ / 72) ∧
    (∀ (p : Preset) (sdpi : ℚ),
      (altair_theme_config p sdpi).titleFontSize
        = fsGet p.font_size "title" 14 * (p.dpi.toQ / 72)) ∧
    (∀ s : SysState,
      (altairApplyStyle ARTICLE_PRESET s).1.altairRegistered = s.altairRegistered ∧
      (altairApplyStyle ARTICLE_PRESET s).1.altairActive = s.altairActive) := by
  refine ⟨by norm_num [plotly_dpi_scale], fun p d => rfl, fun p => ?_, fun p => ?_,
    fun p sdpi => ?_, fun s => ?_⟩
  · refine ⟨?_, ?_, ?_, ?_⟩ <;> norm_num [configure_template, plotly_dpi_scale]
  · norm_num [altair_dpi_scale]
  · norm_num [altair_theme_config, altair_dpi_scale]
  · cases h : s.altairAvailable <;>
      simp [altairApplyStyle, ARTICLE_PRESET, h]

/-- C1 (violated by the code): with matplotlib available and its
default rcParams, `apply_style(article)`, `apply_style(presentation)`,
`reset_style` leaves `figure.figsize` at the *article* preset's value
`(3.5, 2.625)` — the state before the *second* apply — instead of
restoring the pre-first-apply default `(6.4, 4.8)`: `apply_style`
overwrites the `_original_rcparams` snapshot unconditionally
(`matplotlib.py` line 87), unlike the guarded `_original_savefig`
snapshot. -/
theorem c1_snapshot_overwritten :
    ((mplResetStyle (mplApplyStyle PRESENTATION_PRESET
        (mplApplyStyle ARTICLE_PRESET mplOnlyState).1).1).rcParams "figure.figsize"
      = RcVal.numPair (.float (mkRat 7 2), .float (mkRat 21 8))) ∧
    (mplOnlyState.rcParams "figure.figsize"
      = RcVal.numPair (.float (mkRat 32 5), .float (mkRat 24 5))) ∧
    ((mplResetStyle (mplApplyStyle PRESENTATION_PRESET
        (mplApplyStyle ARTICLE_PRESET mplOnlyState).1).1).rcParams "figure.figsize"
      ≠ mplOnlyState.rcParams "figure.figsize") := by
  refine ⟨by decide, by decide, by decide⟩

/-- A preset document with three independently invalid fields: a
negative dpi, an out-of-range watermark opacity, and a malformed hex
color in an inline colorway. -/
def c3Doc : List (String × Yaml) :=
  [("name", .str "bad"), ("mode", .str "article"),
   ("figure", .dict [("size", .list [.float (mkRat 7 2), .float (mkRat 21 8)]),
                     ("dpi", .int (-100))]),
   ("colorway", .dict [("name", .str "c"), ("description", .str "d"),
     ("colors", .dict [("categorical", .list [.str "not-a-color"])])]),
   ("watermark", .dict [("type", .str "text"), ("text", .str "hi"),
     ("opacity", .float (mkRat 3 2))])]

/-- C3 counterexample: on a document with a negative dpi, an
out-of-range watermark opacity, and a malformed hex color in an inline
colorway, the loader raises a validation error carrying only the *one*
colorway message — the inline-colorway parse raises before the dpi and
opacity violations are ever examined — not the claimed aggregate of
all three. -/
theorem c3_counterexample :
    parse_preset_from_dict [] c3Doc "."
      = .error (.validationError
          [{ field := "categorical[0]",
             message := "Invalid hex color 'not-a-color'. Expected format: #RRGGBB or #RRGGBBAA.",
             severity := "error" }]) ∧
    (match parse_preset_from_dict [] c3Doc "." with
     | .error (.validationError errs) => errs.length
     | _ => 0) = 1 := by
  exact ⟨by decide, by decide⟩

/-- Helper: whenever the preset was constructed and `validate_preset`
reports a non-empty findings list, `_parse_preset_from_dict` raises one
`YAMLValidationError` carrying exactly that list
(`yaml_parser.py` lines 256-259). -/
theorem parse_preset_raises_on_findings (registry : List (String × Colorway))
    (data : List (String × Yaml)) (base : String) (p : Preset)
    (hcore : parse_preset_core registry data base = .ok p)
    (hne : validate_preset p ≠ []) :
    parse_preset_from_dict registry data base
      = .error (.validationError (validate_preset p)) := by
  have hb : parse_preset_from_dict registry data base
      = Except.bind (parse_preset_core registry data base) (fun preset =>
          if validate_preset preset ≠ [] then
            Except.error (YamlErr.validationError (validate_preset preset))
          else pure preset) := rfl
  rw [hb, hcore]
  simp only [Except.bind]
  rw [if_pos hne]

/-- A preset document whose three independently invalid fields are all
top-level fields checked by `validate_preset` itself: negative dpi,
negative line width, zero marker size. -/
def c3AggDoc : List (String × Yaml) :=
  [("name", .str "bad"), ("mode", .str "article"),
   ("figure", .dict [("size", .list [.float (mkRat 7 2), .float (mkRat 21 8)]),
                     ("dpi", .int (-100))]),
   ("elements", .dict [("line_width", .float (mkRat (-1) 1)),
                       ("marker_size", .int 0)])]

/-- The preset `c3AggDoc` parses to. -/
def c3AggPreset : Preset :=
  { name := "bad", mode := "article"
    figure_size := (.float (mkRat 7 2), .float (mkRat 21 8))
    dpi := .int (-100), font_family := "sans-serif", font_size := []
    line_width := .float (mkRat (-1) 1), marker_size := .int 0
    colorway := none, watermark := none }

/-- C3, amended: one `YAMLValidationError` aggregating every violation
is raised when the invalid fields are all fields that
`validate_preset` itself checks on the assembled preset (here: dpi,
line width, marker size — all three messages in one error object); but
an invalid inline colorway or watermark block raises earlier, during
sub-block parsing, carrying only that block's own messages (and a
watermark range violation raises `ValueError` already at
construction), so violations are not aggregated across sub-blocks. -/
theorem c3_validation_aggregation :
    (∀ (registry : List (String × Colorway)) (data : List (String × Yaml))
        (base : String) (p : Preset),
      parse_preset_core registry data base = .ok p →
      validate_preset p ≠ [] →
      parse_preset_from_dict registry data base
        = .error (.validationError (validate_preset p))) ∧
    parse_preset_from_dict [] c3AggDoc "."
      = .error (.validationError
          [{ field := "dpi",
             message := "DPI must be a positive integer, got -100.",
             severity := "error" },
           { field := "line_width",
             message := "Line width must be a positive number, got -1.0.",
             severity := "error" },
           { field := "marker_size",
             message := "Marker size must be a positive number, got 0.",
             severity := "error" }]) := by
  constructor
  · intro registry data base p hcore hne
    exact parse_preset_raises_on_findings registry data base p hcore hne
  · decide

/-- Witness for C3 at a concrete document. -/
theorem c3_validation_aggregation_witness :
    parse_preset_from_dict [] c3AggDoc "."
      = .error (.validationError (validate_preset c3AggPreset)) :=
  c3_validation_aggregation.1 [] c3AggDoc "." c3AggPreset (by decide) (by decide)

/-- A preset document whose only validation finding is the
warning-severity "unknown font size key" entry. -/
def c10Doc : List (String × Yaml) :=
  [("name", .str "warn-only"), ("mode", .str "article"),
   ("figure", .dict [("size", .list [.float (mkRat 7 2), .float (mkRat 21 8)])]),
   ("typography", .dict [("font_sizes", .dict [("subtitle", .float (mkRat 10 1))])])]

/-- The preset `c10Doc` parses to. -/
def c10Preset : Preset :=
  { name := "warn-only", mode := "article"
    figure_size := (.float (mkRat 7 2), .float (mkRat 21 8))
    dpi := .int 300, font_family := "sans-serif"
    font_size := [("subtitle", .float (mkRat 10 1))]
    line_width := .float (mkRat 3 2), marker_size := .float (mkRat 6 1)
    colorway := none, watermark := none }

/-- C10: a preset document whose every validation finding has severity
`"warning"` (such as a font-size map with a key outside the five valid
keys) still raises `YAMLValidationError` — the loader raises whenever
the findings list is non-empty and never inspects severity. -/
theorem c10_warning_only_raises (registry : List (String × Colorway))
    (data : List (String × Yaml)) (base : String) (p : Preset)
    (hcore : parse_preset_core registry data base = .ok p)
    (hne : validate_preset p ≠ [])
    (_hwarn : ∀ e ∈ validate_preset p, e.severity = "warning") :
    parse_preset_from_dict registry data base
      = .error (.validationError (validate_preset p)) :=
  parse_preset_raises_on_findings registry data base p hcore hne

/-- Witness for C10: `c10Doc`'s only finding is a warning, yet loading
raises. -/
theorem c10_warning_only_raises_witness :
    parse_preset_from_dict [] c10Doc "."
      = .error (.validationError (validate_preset c10Preset)) :=
  c10_warning_only_raises [] c10Doc "." c10Preset (by decide) (by decide) (by decide)

/-- Helper: looking up the key just set. -/
theorem aget_aset_self {α : Type} (l : List (String × α)) (k : String) (v : α) :
    aget (aset l k v) k = some v := by
  induction l with
  | nil => simp [aget, aset, List.find?]
  | cons kv t ih =>
    obtain ⟨k', v'⟩ := kv
    by_cases h : k' = k
    · simp [aset, h, aget, List.find?]
    · simp only [aset, if_neg h]
      simpa [aget, List.find?, h] using ih

/-- Helper: a preset-registry update does not change availability. -/
theorem availableFor_setRegistry (s : SysState) (pr : List (String × Preset))
    (l : Lib) :
    SysState.availableFor { s with presetRegistry := pr } l = s.availableFor l := by
  cases l <;> rfl

/-- Helper: adapter selection silently drops an explicitly named, known
but unavailable library. -/
theorem except_bind_ok {ε α : Type} (x : Except ε α) :
    (x >>= fun a => Except.ok a) = x := by
  cases x <;> rfl

theorem selectAdapters_skip (s : SysState) (names : List String) (n : String)
    (l : Lib) (hn : libOfName n = some l) (hun : s.availableFor l = false) :
    selectAdapters s (some (names ++ [n])) = selectAdapters s (some names) := by
  simp [selectAdapters, List.foldlM_append, List.foldlM_cons, List.foldlM_nil,
    get_adapter, hn, hun, except_bind_ok]

/-- C5, amended: a known library name whose library is *unavailable* is
silently skipped — appending it to the explicit list leaves the entire
`apply_global_setup` call unchanged, so no error is raised and the
remaining named libraries are still styled (concretely: with only
matplotlib importable, `["matplotlib", "altair"]` succeeds and styles
matplotlib).  But a name outside the four *known* libraries is not
skipped: `get_adapter` raises `ValueError` via `get_library_info`. -/
theorem c5_unknown_vs_unavailable :
    (∀ (s : SysState) (mode : String) (cw : Option (String ⊕ Colorway))
        (wm : Option (String ⊕ WatermarkConfig)) (names : List String)
        (n : String) (l : Lib),
      libOfName n = some l → s.availableFor l = false →
      apply_global_setup mode (some (names ++ [n])) cw wm s
        = apply_global_setup mode (some names) cw wm s) ∧
    ((apply_global_setup "article" (some ["matplotlib", "altair"]) none none
        mplOnlyState).2 = none) ∧
    ((apply_global_setup "article" (some ["matplotlib", "altair"]) none none
        mplOnlyState).1.styleRegistry.hasActiveStyle "matplotlib" = true) ∧
    ((apply_global_setup "article" (some ["matplotlib", "altair"]) none none
        mplOnlyState).1.styleRegistry.hasActiveStyle "altair" = false) := by
  refine ⟨?_, by decide, by decide, by decide⟩
  intro s mode cw wm names n l hn hun
  unfold apply_global_setup
  cases hm : aget s.presetRegistry mode with
  | none => rfl
  | some preset =>
    dsimp only
    cases hc : resolveColorway s mode preset cw with
    | error e => rfl
    | ok pc =>
      dsimp only
      cases hw : resolveWatermark wm with
      | error e => rfl
      | ok owm =>
        dsimp only
        cases owm with
        | none =>
          dsimp only
          rw [selectAdapters_skip _ names n l hn (by cases l <;> exact hun)]
        | some w =>
          dsimp only
          rw [selectAdapters_skip _ names n l hn (by cases l <;> exact hun)]

/-- Witness for C5 at a concrete state: with only matplotlib
importable, naming the unavailable `"altair"` changes nothing. -/
theorem c5_unknown_vs_unavailable_witness :
    apply_global_setup "article" (some (["matplotlib"] ++ ["altair"])) none none
        mplOnlyState
      = apply_global_setup "article" (some ["matplotlib"]) none none mplOnlyState :=
  c5_unknown_vs_unavailable.1 mplOnlyState "article" none none ["matplotlib"]
    "altair" .altair rfl rfl

/-- C5 counterexample: a library name outside the four known ones is
not silently skipped — `apply_global_setup` raises `ValueError` from
`DiscoveryService.get_library_info`. -/
theorem c5_counterexample :
    (apply_global_setup "article" (some ["bokeh"]) none none mplOnlyState).2
      = some (.valueError ("Unknown library 'bokeh'. Available libraries: " ++
          "['matplotlib', 'seaborn', 'plotly', 'altair']")) := by
  decide

/-- Helper: `MatplotlibAdapter.apply_style` does not touch the preset
registry. -/
theorem mplApplyStyle_presetRegistry (p : Preset) (s : SysState) :
    ((mplApplyStyle p s).1).presetRegistry = s.presetRegistry := by
  obtain ⟨pr, cr, mav, sav, pav, aav, rc, sf, tr, pt, pd, fi, ar, aa, cs, cos,
    ma, sa, pa, al, reg⟩ := s
  obtain ⟨orc, wc, osf⟩ := ma
  cases mav <;> cases hc : p.colorway <;> cases hw : p.watermark <;>
    simp [mplApplyStyle, mplApplyColorway, mplAddWatermark, hc, hw]

/-- Helper: `SeabornAdapter.apply_style` does not touch the preset
registry. -/
theorem snsApplyStyle_presetRegistry (p : Preset) (s : SysState) :
    ((snsApplyStyle p s).1).presetRegistry = s.presetRegistry := by
  obtain ⟨pr, cr, mav, sav, pav, aav, rc, sf, tr, pt, pd, fi, ar, aa, cs, cos,
    ma, sa, pa, al, reg⟩ := s
  obtain ⟨ot, oc, wc, osf⟩ := sa
  cases sav <;> cases hc : p.colorway <;> cases hw : p.watermark <;>
    simp [snsApplyStyle, snsApplyColorway, snsAddWatermark, snsConfigureTheme,
      hc, hw]

/-- Helper: `PlotlyAdapter.apply_style` does not touch the preset
registry. -/
theorem plotlyApplyStyle_presetRegistry (p : Preset) (s : SysState) :
    ((plotlyApplyStyle p s).1).presetRegistry = s.presetRegistry := by
  obtain ⟨pr, cr, mav, sav, pav, aav, rc, sf, tr, pt, pd, fi, ar, aa, cs, cos,
    ma, sa, pa, al, reg⟩ := s
  obtain ⟨ot, ct, wc, ofi⟩ := pa
  cases pav <;> cases hc : p.colorway <;> cases hw : p.watermark <;>
    simp [plotlyApplyStyle, plotlyApplyColorway, plotlyAddWatermark, hc, hw]

/-- Helper: `AltairAdapter.apply_style` does not touch the preset
registry. -/
theorem altairApplyStyle_presetRegistry (p : Preset) (s : SysState) :
    ((altairApplyStyle p s).1).presetRegistry = s.presetRegistry := by
  obtain ⟨pr, cr, mav, sav, pav, aav, rc, sf, tr, pt, pd, fi, ar, aa, cs, cos,
    ma, sa, pa, al, reg⟩ := s
  obtain ⟨ot, ct, btc, wc⟩ := al
  cases aav <;> cases hc : p.colorway <;> cases hw : p.watermark <;>
    simp [altairApplyStyle, altairApplyColorway, altairAddWatermark, hc, hw] <;>
    cases btc <;> rfl

/-- Helper: `apply_style` dispatched on any library does not touch the
preset registry. -/
theorem applyStyleFor_presetRegistry (l : Lib) (p : Preset) (s : SysState) :
    ((applyStyleFor l p s).1).presetRegistry = s.presetRegistry := by
  cases l
  · exact mplApplyStyle_presetRegistry p s
  · exact snsApplyStyle_presetRegistry p s
  · exact plotlyApplyStyle_presetRegistry p s
  · exact altairApplyStyle_presetRegistry p s

/-- Helper: `applyStyleFor`, in equation form. -/
theorem applyStyleFor_presetRegistry_eq (l : Lib) (p : Preset) (s s' : SysState)
    (e : Option PyErr) (h : applyStyleFor l p s = (s', e)) :
    s'.presetRegistry = s.presetRegistry := by
  have hx := applyStyleFor_presetRegistry l p s
  rw [h] at hx
  exact hx

/-- Helper: the styling loop of `apply_global_setup` does not touch the
preset registry. -/
theorem styleLoop_presetRegistry (p : Preset) (ls : List Lib) (s : SysState) :
    ((styleLoop p ls s).1).presetRegistry = s.presetRegistry := by
  induction ls generalizing s with
  | nil => rfl
  | cons l rest ih =>
    unfold styleLoop
    dsimp only
    split
    · rename_i s' e heq
      have hx := applyStyleFor_presetRegistry_eq _ _ _ _ _ heq
      exact hx
    · rename_i s' heq
      have hx := applyStyleFor_presetRegistry_eq _ _ _ _ _ heq
      rw [ih]
      exact hx

/-- C7, amended: every `apply_global_setup` call whose preset lookup
and colorway resolution succeed assigns the resolved colorway onto the
`Preset` object stored in the global registry itself — the mutation
happens before adapter selection, so afterwards (even when styling a
library later raises) `get_preset(mode)` returns a preset whose
`colorway` equals the resolved colorway, also when it was `None`
before.  A *scoped-context entry*, by contrast, performs the
assignment only once per selected adapter, so an entry that selects no
adapters leaves the stored preset untouched (see the
counterexample). -/
theorem c7_colorway_assigned_in_registry (s : SysState) (mode : String)
    (libraries : Option (List String)) (cw : Option (String ⊕ Colorway))
    (p : Preset) (pc : Colorway)
    (hp : aget s.presetRegistry mode = some p)
    (hc : resolveColorway s mode p cw = .ok pc) :
    aget ((apply_global_setup mode libraries cw none s).1.presetRegistry) mode
      = some { p with colorway := some pc } := by
  unfold apply_global_setup
  rw [hp]
  dsimp only
  rw [hc]
  dsimp only [resolveWatermark]
  cases hsel : selectAdapters
      { s with presetRegistry := aset s.presetRegistry mode { p with colorway := some pc } }
      libraries with
  | error e => simpa using aget_aset_self s.presetRegistry mode { p with colorway := some pc }
  | ok adapters =>
    dsimp only
    have hsl := styleLoop_presetRegistry { p with colorway := some pc } adapters
      { s with presetRegistry := aset s.presetRegistry mode { p with colorway := some pc } }
    rw [hsl]
    simpa using aget_aset_self s.presetRegistry mode { p with colorway := some pc }

/-- Witness for C7: on the article preset (whose stored colorway is
`None`), a setup call rewrites the registry entry with the resolved
default colorway. -/
theorem c7_colorway_assigned_in_registry_witness :
    aget ((apply_global_setup "article" none none none mplOnlyState).1.presetRegistry)
        "article" = some { ARTICLE_PRESET with colorway := some DEFAULT_COLORWAY } :=
  c7_colorway_assigned_in_registry mplOnlyState "article" none none ARTICLE_PRESET
    DEFAULT_COLORWAY (by decide) rfl

/-- C7 counterexample: a scoped-context entry that selects *no*
adapters (here: no library is importable) succeeds but performs no
colorway resolution and no registry mutation — afterwards the stored
article preset still has `colorway = None`, contradicting the claim
for scoped-context entries. -/
theorem c7_counterexample :
    (ctxEnter "article" none none none baseState).2.1 = none ∧
    (ctxEnter "article" none none none baseState).2.2 = [] ∧
    aget ((ctxEnter "article" none none none baseState).1.presetRegistry) "article"
      = some ARTICLE_PRESET ∧
    ARTICLE_PRESET.colorway = none := by
  refine ⟨rfl, rfl, by decide, rfl⟩

/-- Helper: `MatplotlibAdapter.apply_style` preserves the style
registry and the availability flags. -/
theorem mplApplyStyle_fields (p : Preset) (s : SysState) :
    ((mplApplyStyle p s).1).styleRegistry = s.styleRegistry ∧
    (∀ l', ((mplApplyStyle p s).1).availableFor l' = s.availableFor l') := by
  obtain ⟨pr, cr, mav, sav, pav, aav, rc, sf, tr, pt, pd, fi, ar, aa, cs, cos,
    ma, sa, pa, alA, reg⟩ := s
  obtain ⟨orc, wc, osf⟩ := ma
  cases mav <;> cases hc : p.colorway <;> cases hw : p.watermark <;>
    refine ⟨?_, fun l' => ?_⟩ <;>
    simp [mplApplyStyle, mplApplyColorway, mplAddWatermark, hc, hw] <;>
    cases l' <;> rfl

/-- Helper: `SeabornAdapter.apply_style` preserves the style registry
and the availability flags. -/
theorem snsApplyStyle_fields (p : Preset) (s : SysState) :
    ((snsApplyStyle p s).1).styleRegistry = s.styleRegistry ∧
    (∀ l', ((snsApplyStyle p s).1).availableFor l' = s.availableFor l') := by
  obtain ⟨pr, cr, mav, sav, pav, aav, rc, sf, tr, pt, pd, fi, ar, aa, cs, cos,
    ma, sa, pa, alA, reg⟩ := s
  obtain ⟨ot, oc, wc, osf⟩ := sa
  cases sav <;> cases hc : p.colorway <;> cases hw : p.watermark <;>
    refine ⟨?_, fun l' => ?_⟩ <;>
    simp [snsApplyStyle, snsApplyColorway, snsAddWatermark, snsConfigureTheme, hc, hw] <;>
    cases l' <;> rfl

/-- Helper: `PlotlyAdapter.apply_style` preserves the style registry
and the availability flags. -/
theorem plotlyApplyStyle_fields (p : Preset) (s : SysState) :
    ((plotlyApplyStyle p s).1).styleRegistry = s.styleRegistry ∧
    (∀ l', ((plotlyApplyStyle p s).1).availableFor l' = s.availableFor l') := by
  obtain ⟨pr, cr, mav, sav, pav, aav, rc, sf, tr, pt, pd, fi, ar, aa, cs, cos,
    ma, sa, pa, alA, reg⟩ := s
  obtain ⟨ot, ct, wc, ofi⟩ := pa
  cases pav <;> cases hc : p.colorway <;> cases hw : p.watermark <;>
    refine ⟨?_, fun l' => ?_⟩ <;>
    simp [plotlyApplyStyle, plotlyApplyColorway, plotlyAddWatermark, hc, hw] <;>
    cases l' <;> rfl

/-- Helper: `AltairAdapter.apply_style` preserves the style registry
and the availability flags. -/
theorem altairApplyStyle_fields (p : Preset) (s : SysState) :
    ((altairApplyStyle p s).1).styleRegistry = s.styleRegistry ∧
    (∀ l', ((altairApplyStyle p s).1).availableFor l' = s.availableFor l') := by
  obtain ⟨pr, cr, mav, sav, pav, aav, rc, sf, tr, pt, pd, fi, ar, aa, cs, cos,
    ma, sa, pa, alA, reg⟩ := s
  obtain ⟨ot, ct, btc, wc⟩ := alA
  cases aav <;> cases hc : p.colorway <;> cases hw : p.watermark <;> cases btc <;>
    refine ⟨?_, fun l' => ?_⟩ <;>
    simp [altairApplyStyle, altairApplyColorway, altairAddWatermark, hc, hw] <;>
    cases l' <;> rfl

/-- Helper: availability is unchanged by any dispatched `apply_style`,
in equation form. -/
theorem applyStyleFor_avail_eq (l : Lib) (p : Preset) (s s' : SysState)
    (e : Option PyErr) (h : applyStyleFor l p s = (s', e)) (l' : Lib) :
    s'.availableFor l' = s.availableFor l' := by
  have hx : ((applyStyleFor l p s).1).availableFor l' = s.availableFor l' := by
    cases l
    · exact (mplApplyStyle_fields p s).2 l'
    · exact (snsApplyStyle_fields p s).2 l'
    · exact (plotlyApplyStyle_fields p s).2 l'
    · exact (altairApplyStyle_fields p s).2 l'
  rw [h] at hx
  exact hx

/-- Helper: `MatplotlibAdapter.reset_style` preserves the style
registry and the availability flags. -/
theorem mplResetStyle_fields (s : SysState) :
    (mplResetStyle s).styleRegistry = s.styleRegistry ∧
    (∀ l', (mplResetStyle s).availableFor l' = s.availableFor l') := by
  obtain ⟨pr, cr, mav, sav, pav, aav, rc, sf, tr, pt, pd, fi, ar, aa, cs, cos,
    ma, sa, pa, alA, reg⟩ := s
  obtain ⟨orc, wc, osf⟩ := ma
  cases mav <;> cases orc <;> cases osf <;>
    exact ⟨rfl, fun l' => by cases l' <;> rfl⟩

/-- Helper: `SeabornAdapter.reset_style` preserves the style registry
and the availability flags. -/
theorem snsResetStyle_fields (s : SysState) :
    (snsResetStyle s).styleRegistry = s.styleRegistry ∧
    (∀ l', (snsResetStyle s).availableFor l' = s.availableFor l') := by
  obtain ⟨pr, cr, mav, sav, pav, aav, rc, sf, tr, pt, pd, fi, ar, aa, cs, cos,
    ma, sa, pa, alA, reg⟩ := s
  obtain ⟨ot, oc, wc, osf⟩ := sa
  cases sav <;> cases ot <;> cases oc <;> cases osf <;>
    exact ⟨rfl, fun l' => by cases l' <;> rfl⟩

/-- Helper: `PlotlyAdapter.reset_style` preserves the style registry
and the availability flags. -/
theorem plotlyResetStyle_fields (s : SysState) :
    (plotlyResetStyle s).styleRegistry = s.styleRegistry ∧
    (∀ l', (plotlyResetStyle s).availableFor l' = s.availableFor l') := by
  obtain ⟨pr, cr, mav, sav, pav, aav, rc, sf, tr, pt, pd, fi, ar, aa, cs, cos,
    ma, sa, pa, alA, reg⟩ := s
  obtain ⟨ot, ct, wc, ofi⟩ := pa
  cases pav <;> cases ot <;> cases ofi <;>
    exact ⟨rfl, fun l' => by cases l' <;> rfl⟩

/-- Helper: `AltairAdapter.reset_style` preserves the style registry
and the availability flags. -/
theorem altairResetStyle_fields (s : SysState) :
    (altairResetStyle s).styleRegistry = s.styleRegistry ∧
    (∀ l', (altairResetStyle s).availableFor l' = s.availableFor l') := by
  obtain ⟨pr, cr, mav, sav, pav, aav, rc, sf, tr, pt, pd, fi, ar, aa, cs, cos,
    ma, sa, pa, alA, reg⟩ := s
  obtain ⟨ot, ct, btc, wc⟩ := alA
  cases aav <;> cases ot
  case false.none => exact ⟨rfl, fun l' => by cases l' <;> rfl⟩
  case false.some t => exact ⟨rfl, fun l' => by cases l' <;> rfl⟩
  case true.none => exact ⟨rfl, fun l' => by cases l' <;> rfl⟩
  case true.some t =>
    by_cases hm : t ∈ ar <;>
      refine ⟨?_, fun l' => ?_⟩ <;>
      simp [altairResetStyle, hm] <;> cases l' <;> rfl

/-- Helper: `reset_style`, dispatched on any library, preserves the
style registry and the availability flags. -/
theorem resetStyleFor_fields (l : Lib) (s : SysState) :
    (resetStyleFor l s).styleRegistry = s.styleRegistry ∧
    (∀ l', (resetStyleFor l s).availableFor l' = s.availableFor l') := by
  cases l
  · exact mplResetStyle_fields s
  · exact snsResetStyle_fields s
  · exact plotlyResetStyle_fields s
  · exact altairResetStyle_fields s

/-- Helper: the availability flags survive the whole `__enter__`
styling loop. -/
theorem ctxEnterLoop_avail (mode : String) (cw : Option (String ⊕ Colorway))
    (wm : Option (String ⊕ WatermarkConfig)) (ls : List Lib) (s : SysState)
    (l' : Lib) :
    ((ctxEnterLoop mode cw wm ls s).1).availableFor l' = s.availableFor l' := by
  induction ls generalizing s with
  | nil => rfl
  | cons l rest ih =>
    unfold ctxEnterLoop
    try dsimp only
    split
    · cases l' <;> rfl
    · split
      · cases l' <;> rfl
      · try dsimp only
        split
        · cases l' <;> rfl
        · rename_i owm heqw
          cases owm with
          | none =>
            try dsimp only
            split
            · rename_i heq
              have hx := applyStyleFor_avail_eq _ _ _ _ _ heq l'
              exact hx.trans (by cases l' <;> rfl)
            · rename_i heq
              have hx := applyStyleFor_avail_eq _ _ _ _ _ heq l'
              refine (ih _).trans (Eq.trans ?_ (hx.trans ?_)) <;> cases l' <;> rfl
          | some w =>
            try dsimp only
            split
            · rename_i heq
              have hx := applyStyleFor_avail_eq _ _ _ _ _ heq l'
              exact hx.trans (by cases l' <;> rfl)
            · rename_i heq
              have hx := applyStyleFor_avail_eq _ _ _ _ _ heq l'
              refine (ih _).trans (Eq.trans ?_ (hx.trans ?_)) <;> cases l' <;> rfl

/-- Helper: every library's adapter name round-trips through the
known-library lookup. -/
theorem libOfName_libName (l : Lib) : libOfName (Lib.libName l) = some l := by
  cases l <;> rfl

/-- Helper: `Except.ok` on the left of a bind. -/
theorem except_ok_bind {ε α β : Type} (a : α) (f : α → Except ε β) :
    (Except.ok a >>= f) = f a := rfl

/-- Helper: `Except.error` on the left of a bind. -/
theorem except_error_bind {ε α β : Type} (e : ε) (f : α → Except ε β) :
    ((Except.error e : Except ε α) >>= f) = .error e := rfl

/-- Helper: `get_adapter` only hands back available adapters. -/
theorem get_adapter_ok_some (s : SysState) (n : String) (l : Lib)
    (h : get_adapter s n = .ok (some l)) : s.availableFor l = true := by
  unfold get_adapter at h
  cases hn : libOfName n with
  | none => rw [hn] at h; cases h
  | some l0 =>
    rw [hn] at h
    cases hav : s.availableFor l0 with
    | false => simp [hav] at h
    | true =>
      simp [hav] at h
      rw [← h]
      exact hav

/-- Helper: every adapter collected by the explicit-name fold is
available. -/
theorem selectFold_mem (s : SysState) (names : List String) :
    ∀ (acc adapters : List Lib),
      names.foldlM (fun acc n => do
          let oa ← get_adapter s n
          pure (match oa with | some l => acc ++ [l] | none => acc)) acc
        = .ok adapters →
      (∀ l ∈ acc, s.availableFor l = true) →
      ∀ l ∈ adapters, s.availableFor l = true := by
  induction names with
  | nil =>
    intro acc adapters h hacc
    rw [List.foldlM_nil] at h
    have hae : acc = adapters := Except.ok.inj h
    subst hae
    exact hacc
  | cons n rest ih =>
    intro acc adapters h hacc
    rw [List.foldlM_cons] at h
    cases hga : get_adapter s n with
    | error e =>
      rw [hga, except_error_bind] at h
      rw [except_error_bind] at h
      cases h
    | ok oa =>
      rw [hga, except_ok_bind, pure_bind] at h
      cases oa with
      | none => exact ih acc adapters h hacc
      | some l0 =>
        refine ih (acc ++ [l0]) adapters h ?_
        intro l hl
        rcases List.mem_append.mp hl with hl | hl
        · exact hacc l hl
        · rw [List.mem_singleton.mp hl]
          exact get_adapter_ok_some s n l0 hga

/-- Helper: every selected adapter is available. -/
theorem selectAdapters_mem (s : SysState) (libraries : Option (List String))
    (adapters : List Lib) (h : selectAdapters s libraries = .ok adapters) :
    ∀ l ∈ adapters, s.availableFor l = true := by
  cases libraries with
  | none =>
    intro l hl
    unfold selectAdapters at h
    have hae : get_all_available_adapters s = adapters := Except.ok.inj h
    subst hae
    exact (List.mem_filter.mp hl).2
  | some names =>
    unfold selectAdapters at h
    exact selectFold_mem s names [] adapters h (by intro l hl; cases hl)

/-- Helper: removal empties the looked-up key. -/
theorem aget_apop_self {α : Type} (l : List (String × α)) (k : String) :
    aget (apop l k) k = none := by
  induction l with
  | nil => rfl
  | cons kv t ih =>
    obtain ⟨k', v'⟩ := kv
    by_cases h : k' = k
    · have he : apop ((k', v') :: t) k = apop t k := by
        simp [apop, List.filter_cons, h]
      rw [he]
      exact ih
    · have he : apop ((k', v') :: t) k = (k', v') :: apop t k := by
        simp [apop, List.filter_cons, h]
      rw [he]
      have h2 : aget ((k', v') :: apop t k) k = aget (apop t k) k := by
        simp [aget, List.find?_cons, h]
      rw [h2]
      exact ih

/-- Helper: removal of another key cannot make a lookup succeed. -/
theorem aget_apop_of_none {α : Type} (l : List (String × α)) (k n : String)
    (h : aget l n = none) : aget (apop l k) n = none := by
  induction l with
  | nil => rfl
  | cons kv t ih =>
    obtain ⟨k', v'⟩ := kv
    by_cases hkn : k' = n
    · simp [aget, List.find?_cons, hkn] at h
    · have ht : aget t n = none := by
        have h2 : aget ((k', v') :: t) n = aget t n := by
          simp [aget, List.find?_cons, hkn]
        rw [h2] at h
        exact h
      by_cases hk : k' = k
      · have he : apop ((k', v') :: t) k = apop t k := by
          simp [apop, List.filter_cons, hk]
        rw [he]
        exact ih ht
      · have he : apop ((k', v') :: t) k = (k', v') :: apop t k := by
          simp [apop, List.filter_cons, hk]
        rw [he]
        have h2 : aget ((k', v') :: apop t k) n = aget (apop t k) n := by
          simp [aget, List.find?_cons, hkn]
        rw [h2]
        exact ih ht

/-- Helper: the `__exit__` loop over known, available adapter names
never raises, clears every visited adapter's registry record, and
preserves already-cleared records. -/
theorem ctxExitLoop_spec (ns : List String) (s : SysState)
    (h : ∀ n ∈ ns, ∃ l : Lib, libOfName n = some l ∧ s.availableFor l = true) :
    (ctxExitLoop ns s).2 = none ∧
    (∀ n ∈ ns, ((ctxExitLoop ns s).1).styleRegistry.hasActiveStyle n = false) ∧
    (∀ n, s.styleRegistry.hasActiveStyle n = false →
      ((ctxExitLoop ns s).1).styleRegistry.hasActiveStyle n = false) := by
  induction ns generalizing s with
  | nil =>
    exact ⟨rfl, fun n hn => absurd hn (List.not_mem_nil n), fun n h0 => h0⟩
  | cons n rest ih =>
    obtain ⟨l, hl, hav⟩ := h n (List.mem_cons_self n rest)
    have hga : get_adapter s n = .ok (some l) := by
      unfold get_adapter
      rw [hl]
      dsimp only
      rw [if_pos hav]
    have hstep : ctxExitLoop (n :: rest) s
        = ctxExitLoop rest
            { resetStyleFor l s with
              styleRegistry := (resetStyleFor l s).styleRegistry.clearAdapter n } := by
      have hb : ctxExitLoop (n :: rest) s
          = match get_adapter s n with
            | .error e => (s, some e)
            | .ok none => ctxExitLoop rest s
            | .ok (some l) =>
              let s := resetStyleFor l s
              let s := { s with styleRegistry := s.styleRegistry.clearAdapter n }
              ctxExitLoop rest s := rfl
      rw [hb, hga]
    have htrans : ∀ m ∈ rest, ∃ l' : Lib, libOfName m = some l' ∧
        ({ resetStyleFor l s with
           styleRegistry := (resetStyleFor l s).styleRegistry.clearAdapter n
         } : SysState).availableFor l' = true := by
      intro m hm
      obtain ⟨l', hl', hav'⟩ := h m (List.mem_cons_of_mem n hm)
      refine ⟨l', hl', ?_⟩
      have h1 : ({ resetStyleFor l s with
          styleRegistry := (resetStyleFor l s).styleRegistry.clearAdapter n
        } : SysState).availableFor l' = (resetStyleFor l s).availableFor l' := by
        cases l' <;> rfl
      rw [h1, (resetStyleFor_fields l s).2 l']
      exact hav'
    obtain ⟨ih1, ih2, ih3⟩ := ih _ htrans
    have hncleared : ({ resetStyleFor l s with
        styleRegistry := (resetStyleFor l s).styleRegistry.clearAdapter n
      } : SysState).styleRegistry.hasActiveStyle n = false := by
      show ((resetStyleFor l s).styleRegistry.clearAdapter n).hasActiveStyle n = false
      unfold StyleRegistryState.clearAdapter StyleRegistryState.hasActiveStyle
      simp [aget_apop_self]
    refine ⟨?_, ?_, ?_⟩
    · rw [hstep]; exact ih1
    · intro m hm
      rcases List.mem_cons.mp hm with rfl | hm2
      · rw [hstep]; exact ih3 m hncleared
      · rw [hstep]; exact ih2 m hm2
    · intro m h0
      rw [hstep]
      refine ih3 m ?_
      show ((resetStyleFor l s).styleRegistry.clearAdapter n).hasActiveStyle m = false
      have h0a : aget s.styleRegistry.active_presets m = none := by
        unfold StyleRegistryState.hasActiveStyle at h0
        cases hg : aget s.styleRegistry.active_presets m with
        | none => rfl
        | some v => rw [hg] at h0; simp at h0
      unfold StyleRegistryState.clearAdapter StyleRegistryState.hasActiveStyle
      rw [(resetStyleFor_fields l s).1]
      simp [aget_apop_of_none _ _ _ h0a]

/-- **C4.** Scoped styling context (`PublicationStyleContext`): whenever
`__enter__` completes without raising, `__exit__` over the recorded
adapter names raises nothing, clears every entered adapter's record in
the style registry (so the styling acquired on entry is released), and
the whole `with` block runs `__exit__` on every exit path: for any body
outcome (normal return or exception) the final state is the `__exit__`
state and the body's own exception is the one that propagates. -/
theorem c4_scoped_reset_on_all_paths
    (mode : String) (libraries : Option (List String))
    (cw : Option (String ⊕ Colorway)) (wm : Option (String ⊕ WatermarkConfig))
    (s : SysState)
    (h : (ctxEnter mode libraries cw wm s).2.1 = none) :
    (ctxExit (ctxEnter mode libraries cw wm s).2.2
        (ctxEnter mode libraries cw wm s).1).2 = none ∧
    (∀ n ∈ (ctxEnter mode libraries cw wm s).2.2,
      ((ctxExit (ctxEnter mode libraries cw wm s).2.2
          (ctxEnter mode libraries cw wm s).1).1).styleRegistry.hasActiveStyle n
        = false) ∧
    (∀ o : Bool, withBlock mode libraries cw wm o s
      = ((ctxExit (ctxEnter mode libraries cw wm s).2.2
            (ctxEnter mode libraries cw wm s).1).1, none, o)) := by
  cases hsel : selectAdapters s libraries with
  | error e =>
    exfalso
    unfold ctxEnter at h
    rw [hsel] at h
    simp at h
  | ok adapters =>
    rcases hLoop : ctxEnterLoop mode cw wm adapters s with ⟨s1, e1⟩
    have hE : ctxEnter mode libraries cw wm s
        = (s1, e1, adapters.map Lib.libName) := by
      unfold ctxEnter
      rw [hsel]
      dsimp only
      rw [hLoop]
    have he1 : e1 = none := by
      rw [hE] at h
      exact h
    subst he1
    have hav : ∀ n ∈ adapters.map Lib.libName,
        ∃ l : Lib, libOfName n = some l ∧ s1.availableFor l = true := by
      intro n hn
      obtain ⟨l, hl, hln⟩ := List.mem_map.mp hn
      refine ⟨l, by rw [← hln]; exact libOfName_libName l, ?_⟩
      have h1 : s1.availableFor l = s.availableFor l := by
        have h2 := ctxEnterLoop_avail mode cw wm adapters s l
        rw [hLoop] at h2
        exact h2
      rw [h1]
      exact selectAdapters_mem s libraries adapters hsel l hl
    obtain ⟨hx1, hx2, _⟩ := ctxExitLoop_spec (adapters.map Lib.libName) s1 hav
    rw [hE]
    dsimp only
    refine ⟨hx1, hx2, ?_⟩
    intro o
    unfold withBlock
    rw [hE]
    dsimp only
    rcases hExit : ctxExit (adapters.map Lib.libName) s1 with ⟨s2, e2⟩
    have he2 : e2 = none := by
      have h5 : (ctxExit (adapters.map Lib.libName) s1).2 = none := hx1
      rw [hExit] at h5
      exact h5
    subst he2
    rfl

/-- Witness for C4: entering the scoped context for the article preset
on a matplotlib-only system succeeds, and a `with` block whose body
raises still ends in the `__exit__` state with the body's exception
propagating. -/
theorem c4_scoped_reset_on_all_paths_witness :
    (ctxEnter "article" (some ["matplotlib"]) none none mplOnlyState).2.1
      = none ∧
    withBlock "article" (some ["matplotlib"]) none none true mplOnlyState
      = ((ctxExit
            (ctxEnter "article" (some ["matplotlib"]) none none
              mplOnlyState).2.2
            (ctxEnter "article" (some ["matplotlib"]) none none
              mplOnlyState).1).1, none, true) :=
  ⟨by decide,
   (c4_scoped_reset_on_all_paths "article" (some ["matplotlib"]) none none
      mplOnlyState (by decide)).2.2 true⟩

end SaneFigs
